import Mathlib

/-!
Verification of the `dailyco` client library's configuration-to-wire-format
mapping layer, shallowly embedded from the Rust source.

The embedding models:
- JSON values (`Json`) and the serde `Serialize`/`Deserialize` derive semantics
  for the property-bag structs: a serialized struct is a list of key/value
  pairs emitted in field-declaration order, where a field annotated
  `#[serde(skip_serializing_if = "Option::is_none")]` (or a struct under
  `#[serde_with::skip_serializing_none]`) contributes nothing when `None`;
  deserialization reads each field by key, treating a missing `Option` field
  as `None` and a missing `#[serde(default)]`/`default = "..."` field as its
  default, and ignores unknown keys.
- The configuration enums of `src/configuration.rs` with their serde
  rename-all string forms.
- The builders (`RoomPropertiesBuilder` of `src/room_properties.rs`,
  `RoomBuilder` and its private `RoomPropertiesBuilder` of `src/room.rs`,
  `CreateMeetingToken` of `src/meeting_token.rs`), their setters, the
  entities (`RoomProperties`, `MeetingToken`, `Room`), the self-sign claim
  renaming of `src/self_sign_token.rs`, and the error classification of
  `src/error.rs` / `src/client.rs`.

Machine integers (`i64`, `usize`) are modeled as `Int`/`Nat`; the library
performs no arithmetic on them, only storage and (de)serialization. `f64`
(`sfu_switchover`) is modeled as `Rat`; it is likewise only stored and
round-tripped, never computed with.
-/

/-- A JSON value. Arrays are not needed by any claim and are omitted. -/
inductive Json where
  | null : Json
  | bool (b : Bool) : Json
  | num (q : Rat) : Json
  | str (s : String) : Json
  | obj (fields : List (String × Json)) : Json

/-- The key/value items contributed by one optional struct field:
nothing when the field is unset, one item when it is set. -/
def oitem (k : String) (v : Option Json) : List (String × Json) :=
  match v with
  | none => []
  | some j => [(k, j)]

/-- serde `Serialize` for a struct whose fields are described by an
enumeration `F`: emit, in declaration order `all`, the item of each field
(key `key g`, serialized value `read g b`, skipped when `none`). -/
def enumObj {F β : Type} (all : List F) (key : F → String)
    (read : F → β → Option Json) (b : β) : List (String × Json) :=
  match all with
  | [] => []
  | g :: gs => oitem (key g) (read g b) ++ enumObj gs key read b

theorem lookup_oitem_ne {k k' : String} (h : k ≠ k') (v : Option Json)
    (rest : List (String × Json)) :
    List.lookup k (oitem k' v ++ rest) = List.lookup k rest := by
  cases v with
  | none => rfl
  | some j => simp [oitem, List.lookup, beq_eq_false_iff_ne.mpr h]

theorem lookup_enumObj_of_not_mem {F β : Type} {all : List F} {key : F → String}
    {read : F → β → Option Json} {b : β} {s : String}
    (h : s ∉ all.map key) :
    List.lookup s (enumObj all key read b) = none := by
  induction all with
  | nil => rfl
  | cons a gs ih =>
      simp only [List.map_cons, List.mem_cons, not_or] at h
      rw [enumObj, lookup_oitem_ne h.1]
      exact ih h.2

/-- Looking up a field's key in the serialized object yields exactly the
field's (encoded) value: `none` when unset, the set value otherwise. -/
theorem lookup_enumObj {F β : Type} {all : List F} {key : F → String}
    {read : F → β → Option Json} {b : β} {g : F}
    (hnd : (all.map key).Nodup) (hg : g ∈ all) :
    List.lookup (key g) (enumObj all key read b) = read g b := by
  induction all with
  | nil => cases hg
  | cons a gs ih =>
      simp only [List.map_cons, List.nodup_cons] at hnd
      rcases List.mem_cons.mp hg with rfl | hmem
      · rw [enumObj]
        cases hv : read g b with
        | some j => simp [oitem, List.lookup]
        | none =>
            simp only [oitem, List.nil_append]
            exact lookup_enumObj_of_not_mem hnd.1
      · have hne : key g ≠ key a := by
          intro hk
          exact hnd.1 (hk ▸ List.mem_map_of_mem key hmem)
        rw [enumObj, lookup_oitem_ne hne]
        exact ih hnd.2 hmem

/-- The key set of a serialized struct is exactly the keys of the fields
that are set, in declaration order. -/
theorem keys_enumObj {F β : Type} (all : List F) (key : F → String)
    (read : F → β → Option Json) (b : β) :
    (enumObj all key read b).map Prod.fst
      = (all.filter (fun g => (read g b).isSome)).map key := by
  induction all with
  | nil => rfl
  | cons a gs ih =>
      rw [enumObj]
      cases hv : read a b with
      | none => simpa [oitem, List.filter_cons, hv] using ih
      | some j => simpa [oitem, List.filter_cons, hv] using ih

/- Value decoders, mirroring serde deserialization of the primitive field
types from a JSON value. -/

/-- serde `bool` deserialization. -/
def decBool : Json → Option Bool
  | .bool b => some b
  | _ => none

/-- serde `i64` deserialization (integral JSON numbers). -/
def decInt : Json → Option Int
  | .num q => if q.den = 1 then some q.num else none
  | _ => none

/-- serde `usize` deserialization (non-negative integral JSON numbers). -/
def decNat : Json → Option Nat
  | .num q => if q.den = 1 ∧ 0 ≤ q.num then some q.num.toNat else none
  | _ => none

/-- serde `String` deserialization. -/
def decStr : Json → Option String
  | .str s => some s
  | _ => none

/-- serde `f64` deserialization (any JSON number). -/
def decRat : Json → Option Rat
  | .num q => some q
  | _ => none

def encInt (n : Int) : Json := .num (n : Rat)
def encNat (n : Nat) : Json := .num (n : Rat)

theorem decBool_bool (b : Bool) : decBool (.bool b) = some b := rfl

theorem decInt_encInt (n : Int) : decInt (encInt n) = some n := by
  simp [decInt, encInt]

theorem decNat_encNat (n : Nat) : decNat (encNat n) = some n := by
  simp [decNat, encNat]

theorem decStr_str (s : String) : decStr (.str s) = some s := rfl

theorem decRat_num (q : Rat) : decRat (.num q) = some q := rfl

/-- Whether a JSON value is `null`. -/
def isNull : Json → Bool
  | .null => true
  | _ => false

/-- serde deserialization of an `Option<T>` struct field from the object's
field list: a missing key or an explicit `null` is `None`; a present value
must decode. Returns `none` (deserialization error) when the present value
does not decode. -/
def getOptD {α : Type} (fs : List (String × Json)) (k : String)
    (dec : Json → Option α) : Option (Option α) :=
  match List.lookup k fs with
  | none => some none
  | some j => if isNull j then some none else (dec j).map some

/-- serde deserialization of a `#[serde(default)]`-style struct field: a
missing key yields the default; a present value must decode. -/
def getD {α : Type} (fs : List (String × Json)) (k : String)
    (dec : Json → Option α) (dflt : α) : Option α :=
  match List.lookup k fs with
  | none => some dflt
  | some j => dec j

/-- Reading an `Option` field out of an object whose entry for `k` is the
encoding of `v` (absent when `v = none`) recovers `v`, provided the encoder
round-trips and never produces `null`. -/
theorem getOptD_eq {α : Type} {fs : List (String × Json)} {k : String}
    {dec : Json → Option α} {enc : α → Json} {v : Option α}
    (hlk : List.lookup k fs = v.map enc)
    (hrt : ∀ x, dec (enc x) = some x)
    (hnn : ∀ x, isNull (enc x) = false) :
    getOptD fs k dec = some v := by
  cases v with
  | none =>
      unfold getOptD
      rw [hlk]
      rfl
  | some x =>
      unfold getOptD
      rw [hlk, Option.map_some']
      show (if isNull (enc x) then some none else (dec (enc x)).map some)
            = some (some x)
      rw [hnn x, hrt x]
      rfl

/-- Reading a defaulted field out of an object whose entry for `k` is the
encoding of `v` (absent when `v = none`) recovers `v.getD dflt`, provided
the encoder round-trips. -/
theorem getD_eq {α : Type} {fs : List (String × Json)} {k : String}
    {dec : Json → Option α} {enc : α → Json} {v : Option α} {dflt : α}
    (hlk : List.lookup k fs = v.map enc)
    (hrt : ∀ x, dec (enc x) = some x) :
    getD fs k dec dflt = some (v.getD dflt) := by
  cases v with
  | none =>
      unfold getD
      rw [hlk]
      rfl
  | some x =>
      unfold getD
      rw [hlk, Option.map_some']
      exact hrt x

theorem getOptD_of_lookup_none {α : Type} {fs : List (String × Json)}
    {k : String} {dec : Json → Option α}
    (h : List.lookup k fs = none) : getOptD fs k dec = some none := by
  unfold getOptD; rw [h]

theorem getD_of_lookup_none {α : Type} {fs : List (String × Json)}
    {k : String} {dec : Json → Option α} {dflt : α}
    (h : List.lookup k fs = none) : getD fs k dec dflt = some dflt := by
  unfold getD; rw [h]

/-! ## `src/configuration.rs`: configuration enums and the S3 bucket descriptor -/

/-- Signaling server region for hosting a call (`#[serde(rename_all = "kebab-case")]`). -/
inductive Region where
  | afSouth1 | apNortheast2 | apSoutheast1 | apSoutheast2 | apSouth1
  | euCentral1 | euWest2 | saEast1 | usEast1 | usWest2
deriving DecidableEq

def encRegion : Region → Json
  | .afSouth1 => .str "af-south-1"
  | .apNortheast2 => .str "ap-northeast-2"
  | .apSoutheast1 => .str "ap-southeast-1"
  | .apSoutheast2 => .str "ap-southeast-2"
  | .apSouth1 => .str "ap-south-1"
  | .euCentral1 => .str "eu-central-1"
  | .euWest2 => .str "eu-west-2"
  | .saEast1 => .str "sa-east-1"
  | .usEast1 => .str "us-east-1"
  | .usWest2 => .str "us-west-2"

def decRegion : Json → Option Region
  | .str "af-south-1" => some .afSouth1
  | .str "ap-northeast-2" => some .apNortheast2
  | .str "ap-southeast-1" => some .apSoutheast1
  | .str "ap-southeast-2" => some .apSoutheast2
  | .str "ap-south-1" => some .apSouth1
  | .str "eu-central-1" => some .euCentral1
  | .str "eu-west-2" => some .euWest2
  | .str "sa-east-1" => some .saEast1
  | .str "us-east-1" => some .usEast1
  | .str "us-west-2" => some .usWest2
  | _ => none

theorem decRegion_encRegion (r : Region) : decRegion (encRegion r) = some r := by
  cases r <;> rfl

/-- RTMP stream origination region (`kebab-case`). -/
inductive RtmpGeoRegion where
  | usWest2 | euCentral1 | apSoutheast1
deriving DecidableEq

def encRtmpGeoRegion : RtmpGeoRegion → Json
  | .usWest2 => .str "us-west-2"
  | .euCentral1 => .str "eu-central-1"
  | .apSoutheast1 => .str "ap-southeast-1"

def decRtmpGeoRegion : Json → Option RtmpGeoRegion
  | .str "us-west-2" => some .usWest2
  | .str "eu-central-1" => some .euCentral1
  | .str "ap-southeast-1" => some .apSoutheast1
  | _ => none

theorem decRtmpGeoRegion_enc (r : RtmpGeoRegion) :
    decRtmpGeoRegion (encRtmpGeoRegion r) = some r := by
  cases r <;> rfl

/-- Default language options (`#[serde(rename_all = "lowercase")]`). -/
inductive DailyLang where
  | de | en | es | fi | fr | it | jp | ka | nl | no | pt | pl | ru | sv | tr
  | user
deriving DecidableEq

/-- `impl Default for DailyLang`: matching the Daily documented default. -/
def DailyLang.default : DailyLang := .en

def encDailyLang : DailyLang → Json
  | .de => .str "de"
  | .en => .str "en"
  | .es => .str "es"
  | .fi => .str "fi"
  | .fr => .str "fr"
  | .it => .str "it"
  | .jp => .str "jp"
  | .ka => .str "ka"
  | .nl => .str "nl"
  | .no => .str "no"
  | .pt => .str "pt"
  | .pl => .str "pl"
  | .ru => .str "ru"
  | .sv => .str "sv"
  | .tr => .str "tr"
  | .user => .str "user"

def decDailyLang : Json → Option DailyLang
  | .str "de" => some .de
  | .str "en" => some .en
  | .str "es" => some .es
  | .str "fi" => some .fi
  | .str "fr" => some .fr
  | .str "it" => some .it
  | .str "jp" => some .jp
  | .str "ka" => some .ka
  | .str "nl" => some .nl
  | .str "no" => some .no
  | .str "pt" => some .pt
  | .str "pl" => some .pl
  | .str "ru" => some .ru
  | .str "sv" => some .sv
  | .str "tr" => some .tr
  | .str "user" => some .user
  | _ => none

theorem decDailyLang_enc (l : DailyLang) : decDailyLang (encDailyLang l) = some l := by
  cases l <;> rfl

/-- Recording type options (`kebab-case`). The `Local` variant is named
`localRec` here because `local` is a Lean keyword. -/
inductive RecordingType where
  | cloud | rtpTracks | outputByteStream | localRec
deriving DecidableEq

def encRecordingType : RecordingType → Json
  | .cloud => .str "cloud"
  | .rtpTracks => .str "rtp-tracks"
  | .outputByteStream => .str "output-byte-stream"
  | .localRec => .str "local"

def decRecordingType : Json → Option RecordingType
  | .str "cloud" => some .cloud
  | .str "rtp-tracks" => some .rtpTracks
  | .str "output-byte-stream" => some .outputByteStream
  | .str "local" => some .localRec
  | _ => none

theorem decRecordingType_enc (r : RecordingType) :
    decRecordingType (encRecordingType r) = some r := by
  cases r <;> rfl

/-- Signaling type (`lowercase`). -/
inductive SignalingImp where
  | ws
deriving DecidableEq

/-- `impl Default for SignalingImp`. -/
def SignalingImp.default : SignalingImp := .ws

def encSignalingImp : SignalingImp → Json
  | .ws => .str "ws"

def decSignalingImp : Json → Option SignalingImp
  | .str "ws" => some .ws
  | _ => none

theorem decSignalingImp_enc (s : SignalingImp) :
    decSignalingImp (encSignalingImp s) = some s := by
  cases s
  rfl

/-- Configures an S3 bucket in which to store recordings. Four required
fields plus one skip-if-none optional field. -/
structure RecordingsBucket where
  bucket_name : String
  bucket_region : String
  assume_role_arn : String
  allow_api_access : Bool
  allow_streaming_from_bucket : Option Bool
deriving DecidableEq

/-- serde `Serialize` for `RecordingsBucket`. -/
def encRecordingsBucket (r : RecordingsBucket) : Json :=
  .obj ([("bucket_name", .str r.bucket_name),
         ("bucket_region", .str r.bucket_region),
         ("assume_role_arn", .str r.assume_role_arn),
         ("allow_api_access", .bool r.allow_api_access)]
        ++ oitem "allow_streaming_from_bucket"
             (r.allow_streaming_from_bucket.map .bool))

/-- serde `Deserialize` for `RecordingsBucket`. -/
def decRecordingsBucket : Json → Option RecordingsBucket
  | .obj fs => do
      let bucket_name ← (List.lookup "bucket_name" fs).bind decStr
      let bucket_region ← (List.lookup "bucket_region" fs).bind decStr
      let assume_role_arn ← (List.lookup "assume_role_arn" fs).bind decStr
      let allow_api_access ← (List.lookup "allow_api_access" fs).bind decBool
      let allow_streaming_from_bucket ←
        getOptD fs "allow_streaming_from_bucket" decBool
      pure { bucket_name, bucket_region, assume_role_arn, allow_api_access,
             allow_streaming_from_bucket }
  | _ => none

theorem decRecordingsBucket_enc (r : RecordingsBucket) :
    decRecordingsBucket (encRecordingsBucket r) = some r := by
  obtain ⟨a, b, c, d, e⟩ := r
  cases e <;> rfl

/-! ## `src/room_properties.rs`: `RoomProperties` entity and `RoomPropertiesBuilder` -/

/-- Properties for a `Daily` room as reported back by the service
(`#[derive(Deserialize)]`): fields not found in a response take their
default values. -/
structure RoomProperties where
  nbf : Option Int
  exp : Option Int
  max_participants : Option Nat
  enable_people_ui : Option Bool
  enable_pip_ui : Bool
  enable_prejoin_ui : Option Bool
  enable_network_ui : Bool
  enable_knocking : Bool
  enable_screenshare : Bool
  enable_video_processing_ui : Bool
  enable_chat : Bool
  start_video_off : Bool
  start_audio_off : Bool
  owner_only_broadcast : Bool
  enable_recording : Option RecordingType
  eject_at_room_exp : Bool
  eject_after_elapsed : Option Int
  enable_hidden_participants : Bool
  enable_mesh_sfu : Option Bool
  experimental_optimize_large_calls : Option Bool
  lang : DailyLang
  meeting_join_hook : Option String
  signaling_imp : SignalingImp
  geo : Option Region
  rtmp_geo : Option RtmpGeoRegion
  enable_terse_logging : Bool
  recordings_template : Option String
  recordings_bucket : Option RecordingsBucket
  sfu_switchover : Option Rat
deriving DecidableEq

/-- Modelled from the spec: `crate::utils::default_as_true` — the file
`src/utils.rs` is not present in the source snapshot (only `mod utils;` in
`lib.rs` and the uses of `default_as_true` as a serde default are). Per the
spec, fields carrying this serde default materialize to `true` when absent
from a response (screensharing and background-video-processing UI enabled
by default). -/
def default_as_true : Bool := true

/-- A builder to specify properties for a `Daily` room
(`#[derive(Serialize, Default)]`, every field
`#[serde(skip_serializing_if = "Option::is_none")]`). Borrowed `&'a str` /
`&'a RecordingsBucket` fields are modeled as owned values. -/
structure RoomPropertiesBuilder where
  nbf : Option Int := none
  exp : Option Int := none
  max_participants : Option Nat := none
  enable_people_ui : Option Bool := none
  enable_pip_ui : Option Bool := none
  enable_prejoin_ui : Option Bool := none
  enable_network_ui : Option Bool := none
  enable_knocking : Option Bool := none
  enable_screenshare : Option Bool := none
  enable_video_processing_ui : Option Bool := none
  enable_chat : Option Bool := none
  start_video_off : Option Bool := none
  start_audio_off : Option Bool := none
  owner_only_broadcast : Option Bool := none
  enable_recording : Option RecordingType := none
  eject_at_room_exp : Option Bool := none
  eject_after_elapsed : Option Int := none
  enable_hidden_participants : Option Bool := none
  enable_mesh_sfu : Option Bool := none
  experimental_optimize_large_calls : Option Bool := none
  lang : Option DailyLang := none
  meeting_join_hook : Option String := none
  signaling_imp : Option SignalingImp := none
  geo : Option Region := none
  rtmp_geo : Option RtmpGeoRegion := none
  enable_terse_logging : Option Bool := none
  recordings_template : Option String := none
  recordings_bucket : Option RecordingsBucket := none
  sfu_switchover : Option Rat := none
deriving DecidableEq

/-- `RoomPropertiesBuilder::new()` = `Self::default()`: all fields unset. -/
def RoomPropertiesBuilder.new : RoomPropertiesBuilder := {}

/- The fluent setters of `RoomPropertiesBuilder` (each stores `Some value`
into its own field and returns the builder). They are named `set_*` because
in Lean the field projections already occupy the plain names. -/

def RoomPropertiesBuilder.set_nbf (b : RoomPropertiesBuilder) (v : Int) : RoomPropertiesBuilder :=
  { b with nbf := some v }

def RoomPropertiesBuilder.set_exp (b : RoomPropertiesBuilder) (v : Int) : RoomPropertiesBuilder :=
  { b with exp := some v }

def RoomPropertiesBuilder.set_max_participants (b : RoomPropertiesBuilder) (v : Nat) : RoomPropertiesBuilder :=
  { b with max_participants := some v }

def RoomPropertiesBuilder.set_enable_people_ui (b : RoomPropertiesBuilder) (v : Bool) : RoomPropertiesBuilder :=
  { b with enable_people_ui := some v }

def RoomPropertiesBuilder.set_enable_pip_ui (b : RoomPropertiesBuilder) (v : Bool) : RoomPropertiesBuilder :=
  { b with enable_pip_ui := some v }

def RoomPropertiesBuilder.set_enable_prejoin_ui (b : RoomPropertiesBuilder) (v : Bool) : RoomPropertiesBuilder :=
  { b with enable_prejoin_ui := some v }

def RoomPropertiesBuilder.set_enable_network_ui (b : RoomPropertiesBuilder) (v : Bool) : RoomPropertiesBuilder :=
  { b with enable_network_ui := some v }

def RoomPropertiesBuilder.set_enable_knocking (b : RoomPropertiesBuilder) (v : Bool) : RoomPropertiesBuilder :=
  { b with enable_knocking := some v }

def RoomPropertiesBuilder.set_enable_screenshare (b : RoomPropertiesBuilder) (v : Bool) : RoomPropertiesBuilder :=
  { b with enable_screenshare := some v }

def RoomPropertiesBuilder.set_enable_video_processing_ui (b : RoomPropertiesBuilder) (v : Bool) : RoomPropertiesBuilder :=
  { b with enable_video_processing_ui := some v }

def RoomPropertiesBuilder.set_enable_chat (b : RoomPropertiesBuilder) (v : Bool) : RoomPropertiesBuilder :=
  { b with enable_chat := some v }

def RoomPropertiesBuilder.set_start_video_off (b : RoomPropertiesBuilder) (v : Bool) : RoomPropertiesBuilder :=
  { b with start_video_off := some v }

def RoomPropertiesBuilder.set_start_audio_off (b : RoomPropertiesBuilder) (v : Bool) : RoomPropertiesBuilder :=
  { b with start_audio_off := some v }

def RoomPropertiesBuilder.set_owner_only_broadcast (b : RoomPropertiesBuilder) (v : Bool) : RoomPropertiesBuilder :=
  { b with owner_only_broadcast := some v }

def RoomPropertiesBuilder.set_enable_recording (b : RoomPropertiesBuilder) (v : RecordingType) : RoomPropertiesBuilder :=
  { b with enable_recording := some v }

def RoomPropertiesBuilder.set_eject_at_room_exp (b : RoomPropertiesBuilder) (v : Bool) : RoomPropertiesBuilder :=
  { b with eject_at_room_exp := some v }

def RoomPropertiesBuilder.set_eject_after_elapsed (b : RoomPropertiesBuilder) (v : Int) : RoomPropertiesBuilder :=
  { b with eject_after_elapsed := some v }

def RoomPropertiesBuilder.set_enable_hidden_participants (b : RoomPropertiesBuilder) (v : Bool) : RoomPropertiesBuilder :=
  { b with enable_hidden_participants := some v }

def RoomPropertiesBuilder.set_enable_mesh_sfu (b : RoomPropertiesBuilder) (v : Bool) : RoomPropertiesBuilder :=
  { b with enable_mesh_sfu := some v }

def RoomPropertiesBuilder.set_experimental_optimize_large_calls (b : RoomPropertiesBuilder) (v : Bool) : RoomPropertiesBuilder :=
  { b with experimental_optimize_large_calls := some v }

def RoomPropertiesBuilder.set_lang (b : RoomPropertiesBuilder) (v : DailyLang) : RoomPropertiesBuilder :=
  { b with lang := some v }

def RoomPropertiesBuilder.set_meeting_join_hook (b : RoomPropertiesBuilder) (v : String) : RoomPropertiesBuilder :=
  { b with meeting_join_hook := some v }

def RoomPropertiesBuilder.set_signaling_imp (b : RoomPropertiesBuilder) (v : SignalingImp) : RoomPropertiesBuilder :=
  { b with signaling_imp := some v }

def RoomPropertiesBuilder.set_geo (b : RoomPropertiesBuilder) (v : Region) : RoomPropertiesBuilder :=
  { b with geo := some v }

def RoomPropertiesBuilder.set_rtmp_geo (b : RoomPropertiesBuilder) (v : RtmpGeoRegion) : RoomPropertiesBuilder :=
  { b with rtmp_geo := some v }

def RoomPropertiesBuilder.set_enable_terse_logging (b : RoomPropertiesBuilder) (v : Bool) : RoomPropertiesBuilder :=
  { b with enable_terse_logging := some v }

def RoomPropertiesBuilder.set_recordings_template (b : RoomPropertiesBuilder) (v : String) : RoomPropertiesBuilder :=
  { b with recordings_template := some v }

def RoomPropertiesBuilder.set_sfu_switchover (b : RoomPropertiesBuilder) (v : Rat) : RoomPropertiesBuilder :=
  { b with sfu_switchover := some v }

def RoomPropertiesBuilder.set_recordings_bucket (b : RoomPropertiesBuilder) (v : RecordingsBucket) : RoomPropertiesBuilder :=
  { b with recordings_bucket := some v }

/-- `sfu_always()`: equivalent to setting `sfu_switchover` to `0.5`. -/
def RoomPropertiesBuilder.set_sfu_always (b : RoomPropertiesBuilder) : RoomPropertiesBuilder :=
  { b with sfu_switchover := some (0.5 : Rat) }

/-- One name per field of `RoomPropertiesBuilder`/`RoomProperties`, in
declaration order. -/
inductive RPField where
  | nbf | exp | max_participants | enable_people_ui | enable_pip_ui
  | enable_prejoin_ui | enable_network_ui | enable_knocking
  | enable_screenshare | enable_video_processing_ui | enable_chat
  | start_video_off | start_audio_off | owner_only_broadcast
  | enable_recording | eject_at_room_exp | eject_after_elapsed
  | enable_hidden_participants | enable_mesh_sfu
  | experimental_optimize_large_calls | lang | meeting_join_hook
  | signaling_imp | geo | rtmp_geo | enable_terse_logging
  | recordings_template | recordings_bucket | sfu_switchover
deriving DecidableEq

/-- Declaration order of the builder's fields. -/
def allRPFields : List RPField :=
  [.nbf, .exp, .max_participants, .enable_people_ui, .enable_pip_ui,
   .enable_prejoin_ui, .enable_network_ui, .enable_knocking,
   .enable_screenshare, .enable_video_processing_ui, .enable_chat,
   .start_video_off, .start_audio_off, .owner_only_broadcast,
   .enable_recording, .eject_at_room_exp, .eject_after_elapsed,
   .enable_hidden_participants, .enable_mesh_sfu,
   .experimental_optimize_large_calls, .lang, .meeting_join_hook,
   .signaling_imp, .geo, .rtmp_geo, .enable_terse_logging,
   .recordings_template, .recordings_bucket, .sfu_switchover]

/-- The JSON key of each field (serde uses the field name verbatim). -/
def rpfKey : RPField → String
  | .nbf => "nbf"
  | .exp => "exp"
  | .max_participants => "max_participants"
  | .enable_people_ui => "enable_people_ui"
  | .enable_pip_ui => "enable_pip_ui"
  | .enable_prejoin_ui => "enable_prejoin_ui"
  | .enable_network_ui => "enable_network_ui"
  | .enable_knocking => "enable_knocking"
  | .enable_screenshare => "enable_screenshare"
  | .enable_video_processing_ui => "enable_video_processing_ui"
  | .enable_chat => "enable_chat"
  | .start_video_off => "start_video_off"
  | .start_audio_off => "start_audio_off"
  | .owner_only_broadcast => "owner_only_broadcast"
  | .enable_recording => "enable_recording"
  | .eject_at_room_exp => "eject_at_room_exp"
  | .eject_after_elapsed => "eject_after_elapsed"
  | .enable_hidden_participants => "enable_hidden_participants"
  | .enable_mesh_sfu => "enable_mesh_sfu"
  | .experimental_optimize_large_calls => "experimental_optimize_large_calls"
  | .lang => "lang"
  | .meeting_join_hook => "meeting_join_hook"
  | .signaling_imp => "signaling_imp"
  | .geo => "geo"
  | .rtmp_geo => "rtmp_geo"
  | .enable_terse_logging => "enable_terse_logging"
  | .recordings_template => "recordings_template"
  | .recordings_bucket => "recordings_bucket"
  | .sfu_switchover => "sfu_switchover"

/-- A builder field's contribution to the serialized object: `none` when the
caller never set it, `some` of the caller's (encoded) value otherwise. -/
def readRPB : RPField → RoomPropertiesBuilder → Option Json
  | .nbf, b => b.nbf.map encInt
  | .exp, b => b.exp.map encInt
  | .max_participants, b => b.max_participants.map encNat
  | .enable_people_ui, b => b.enable_people_ui.map .bool
  | .enable_pip_ui, b => b.enable_pip_ui.map .bool
  | .enable_prejoin_ui, b => b.enable_prejoin_ui.map .bool
  | .enable_network_ui, b => b.enable_network_ui.map .bool
  | .enable_knocking, b => b.enable_knocking.map .bool
  | .enable_screenshare, b => b.enable_screenshare.map .bool
  | .enable_video_processing_ui, b => b.enable_video_processing_ui.map .bool
  | .enable_chat, b => b.enable_chat.map .bool
  | .start_video_off, b => b.start_video_off.map .bool
  | .start_audio_off, b => b.start_audio_off.map .bool
  | .owner_only_broadcast, b => b.owner_only_broadcast.map .bool
  | .enable_recording, b => b.enable_recording.map encRecordingType
  | .eject_at_room_exp, b => b.eject_at_room_exp.map .bool
  | .eject_after_elapsed, b => b.eject_after_elapsed.map encInt
  | .enable_hidden_participants, b => b.enable_hidden_participants.map .bool
  | .enable_mesh_sfu, b => b.enable_mesh_sfu.map .bool
  | .experimental_optimize_large_calls, b => b.experimental_optimize_large_calls.map .bool
  | .lang, b => b.lang.map encDailyLang
  | .meeting_join_hook, b => b.meeting_join_hook.map .str
  | .signaling_imp, b => b.signaling_imp.map encSignalingImp
  | .geo, b => b.geo.map encRegion
  | .rtmp_geo, b => b.rtmp_geo.map encRtmpGeoRegion
  | .enable_terse_logging, b => b.enable_terse_logging.map .bool
  | .recordings_template, b => b.recordings_template.map .str
  | .recordings_bucket, b => b.recordings_bucket.map encRecordingsBucket
  | .sfu_switchover, b => b.sfu_switchover.map .num

/-- serde `Serialize` for `RoomPropertiesBuilder`: every field
skip-if-none, in declaration order. -/
def serializeRoomPropertiesBuilder (b : RoomPropertiesBuilder) : List (String × Json) :=
  enumObj allRPFields rpfKey readRPB b

theorem mem_allRPFields (g : RPField) : g ∈ allRPFields := by
  cases g <;> decide

theorem nodup_rpfKeys : (allRPFields.map rpfKey).Nodup := by decide

/-- serde `Deserialize` for `RoomProperties`, field by field: `Option`
fields absent become `None`; `#[serde(default)]` fields absent become
`false` (for `bool`) or the enum's `Default`; `default = "default_as_true"`
fields absent become `true`. -/
def decodeRoomPropertiesFields (fs : List (String × Json)) : Option RoomProperties :=
  match getOptD fs "nbf" decInt with
  | none => none
  | some nbf =>
  match getOptD fs "exp" decInt with
  | none => none
  | some exp =>
  match getOptD fs "max_participants" decNat with
  | none => none
  | some max_participants =>
  match getOptD fs "enable_people_ui" decBool with
  | none => none
  | some enable_people_ui =>
  match getD fs "enable_pip_ui" decBool false with
  | none => none
  | some enable_pip_ui =>
  match getOptD fs "enable_prejoin_ui" decBool with
  | none => none
  | some enable_prejoin_ui =>
  match getD fs "enable_network_ui" decBool false with
  | none => none
  | some enable_network_ui =>
  match getD fs "enable_knocking" decBool false with
  | none => none
  | some enable_knocking =>
  match getD fs "enable_screenshare" decBool default_as_true with
  | none => none
  | some enable_screenshare =>
  match getD fs "enable_video_processing_ui" decBool default_as_true with
  | none => none
  | some enable_video_processing_ui =>
  match getD fs "enable_chat" decBool false with
  | none => none
  | some enable_chat =>
  match getD fs "start_video_off" decBool false with
  | none => none
  | some start_video_off =>
  match getD fs "start_audio_off" decBool false with
  | none => none
  | some start_audio_off =>
  match getD fs "owner_only_broadcast" decBool false with
  | none => none
  | some owner_only_broadcast =>
  match getOptD fs "enable_recording" decRecordingType with
  | none => none
  | some enable_recording =>
  match getD fs "eject_at_room_exp" decBool false with
  | none => none
  | some eject_at_room_exp =>
  match getOptD fs "eject_after_elapsed" decInt with
  | none => none
  | some eject_after_elapsed =>
  match getD fs "enable_hidden_participants" decBool false with
  | none => none
  | some enable_hidden_participants =>
  match getOptD fs "enable_mesh_sfu" decBool with
  | none => none
  | some enable_mesh_sfu =>
  match getOptD fs "experimental_optimize_large_calls" decBool with
  | none => none
  | some experimental_optimize_large_calls =>
  match getD fs "lang" decDailyLang DailyLang.default with
  | none => none
  | some lang =>
  match getOptD fs "meeting_join_hook" decStr with
  | none => none
  | some meeting_join_hook =>
  match getD fs "signaling_imp" decSignalingImp SignalingImp.default with
  | none => none
  | some signaling_imp =>
  match getOptD fs "geo" decRegion with
  | none => none
  | some geo =>
  match getOptD fs "rtmp_geo" decRtmpGeoRegion with
  | none => none
  | some rtmp_geo =>
  match getD fs "enable_terse_logging" decBool false with
  | none => none
  | some enable_terse_logging =>
  match getOptD fs "recordings_template" decStr with
  | none => none
  | some recordings_template =>
  match getOptD fs "recordings_bucket" decRecordingsBucket with
  | none => none
  | some recordings_bucket =>
  match getOptD fs "sfu_switchover" decRat with
  | none => none
  | some sfu_switchover =>
  some (RoomProperties.mk nbf exp max_participants enable_people_ui
    enable_pip_ui enable_prejoin_ui enable_network_ui enable_knocking
    enable_screenshare enable_video_processing_ui enable_chat
    start_video_off start_audio_off owner_only_broadcast
    enable_recording eject_at_room_exp eject_after_elapsed
    enable_hidden_participants enable_mesh_sfu
    experimental_optimize_large_calls lang meeting_join_hook
    signaling_imp geo rtmp_geo enable_terse_logging
    recordings_template recordings_bucket sfu_switchover)

/-- serde `Deserialize` for `RoomProperties`: a response payload must be a
JSON object; fields are then read per the rules of `getOptD`/`getD`. -/
def decodeRoomProperties : Json → Option RoomProperties
  | .obj fs => decodeRoomPropertiesFields fs
  | _ => none

/- None of the field encoders ever produces `null` (serde only serializes
`null` for a `Some(None)`-style nesting, which does not occur here). -/

theorem encInt_notNull (n : Int) : isNull (encInt n) = false := rfl

theorem encNat_notNull (n : Nat) : isNull (encNat n) = false := rfl

theorem encBool_notNull (b : Bool) : isNull (.bool b) = false := rfl

theorem encStr_notNull (s : String) : isNull (.str s) = false := rfl

theorem encNum_notNull (q : Rat) : isNull (.num q) = false := rfl

theorem encRegion_notNull (r : Region) : isNull (encRegion r) = false := by
  cases r <;> rfl

theorem encRtmpGeoRegion_notNull (r : RtmpGeoRegion) :
    isNull (encRtmpGeoRegion r) = false := by
  cases r <;> rfl

theorem encDailyLang_notNull (l : DailyLang) : isNull (encDailyLang l) = false := by
  cases l <;> rfl

theorem encRecordingType_notNull (r : RecordingType) :
    isNull (encRecordingType r) = false := by
  cases r <;> rfl

theorem encSignalingImp_notNull (s : SignalingImp) :
    isNull (encSignalingImp s) = false := by
  cases s
  rfl

theorem encRecordingsBucket_notNull (r : RecordingsBucket) :
    isNull (encRecordingsBucket r) = false := rfl

/-- Field lookup in a serialized `RoomPropertiesBuilder` yields exactly the
field's builder state. -/
theorem lookup_serializeRPB (b : RoomPropertiesBuilder) (g : RPField) :
    List.lookup (rpfKey g) (serializeRoomPropertiesBuilder b) = readRPB g b :=
  lookup_enumObj nodup_rpfKeys (mem_allRPFields g)

/-- The `RoomProperties` entity obtained by decoding a serialized
`RoomPropertiesBuilder`: set fields keep their values, unset fields take
the documented defaults. -/
def matRoomProperties (b : RoomPropertiesBuilder) : RoomProperties where
  nbf := b.nbf
  exp := b.exp
  max_participants := b.max_participants
  enable_people_ui := b.enable_people_ui
  enable_pip_ui := b.enable_pip_ui.getD false
  enable_prejoin_ui := b.enable_prejoin_ui
  enable_network_ui := b.enable_network_ui.getD false
  enable_knocking := b.enable_knocking.getD false
  enable_screenshare := b.enable_screenshare.getD default_as_true
  enable_video_processing_ui := b.enable_video_processing_ui.getD default_as_true
  enable_chat := b.enable_chat.getD false
  start_video_off := b.start_video_off.getD false
  start_audio_off := b.start_audio_off.getD false
  owner_only_broadcast := b.owner_only_broadcast.getD false
  enable_recording := b.enable_recording
  eject_at_room_exp := b.eject_at_room_exp.getD false
  eject_after_elapsed := b.eject_after_elapsed
  enable_hidden_participants := b.enable_hidden_participants.getD false
  enable_mesh_sfu := b.enable_mesh_sfu
  experimental_optimize_large_calls := b.experimental_optimize_large_calls
  lang := b.lang.getD DailyLang.default
  meeting_join_hook := b.meeting_join_hook
  signaling_imp := b.signaling_imp.getD SignalingImp.default
  geo := b.geo
  rtmp_geo := b.rtmp_geo
  enable_terse_logging := b.enable_terse_logging.getD false
  recordings_template := b.recordings_template
  recordings_bucket := b.recordings_bucket
  sfu_switchover := b.sfu_switchover

/-- Serializing a `RoomPropertiesBuilder` and deserializing the result as a
`RoomProperties` entity succeeds and preserves every set field. -/
theorem decode_serialize_rpb (b : RoomPropertiesBuilder) :
    decodeRoomProperties (.obj (serializeRoomPropertiesBuilder b))
      = some (matRoomProperties b) := by
  have lk : ∀ g : RPField,
      List.lookup (rpfKey g) (serializeRoomPropertiesBuilder b) = readRPB g b :=
    lookup_serializeRPB b
  show decodeRoomPropertiesFields (serializeRoomPropertiesBuilder b)
        = some (matRoomProperties b)
  have lk_nbf : List.lookup "nbf" (serializeRoomPropertiesBuilder b)
        = b.nbf.map encInt := lk .nbf
  have lk_exp : List.lookup "exp" (serializeRoomPropertiesBuilder b)
        = b.exp.map encInt := lk .exp
  have lk_max_participants : List.lookup "max_participants" (serializeRoomPropertiesBuilder b)
        = b.max_participants.map encNat := lk .max_participants
  have lk_enable_people_ui : List.lookup "enable_people_ui" (serializeRoomPropertiesBuilder b)
        = b.enable_people_ui.map Json.bool := lk .enable_people_ui
  have lk_enable_pip_ui : List.lookup "enable_pip_ui" (serializeRoomPropertiesBuilder b)
        = b.enable_pip_ui.map Json.bool := lk .enable_pip_ui
  have lk_enable_prejoin_ui : List.lookup "enable_prejoin_ui" (serializeRoomPropertiesBuilder b)
        = b.enable_prejoin_ui.map Json.bool := lk .enable_prejoin_ui
  have lk_enable_network_ui : List.lookup "enable_network_ui" (serializeRoomPropertiesBuilder b)
        = b.enable_network_ui.map Json.bool := lk .enable_network_ui
  have lk_enable_knocking : List.lookup "enable_knocking" (serializeRoomPropertiesBuilder b)
        = b.enable_knocking.map Json.bool := lk .enable_knocking
  have lk_enable_screenshare : List.lookup "enable_screenshare" (serializeRoomPropertiesBuilder b)
        = b.enable_screenshare.map Json.bool := lk .enable_screenshare
  have lk_enable_video_processing_ui : List.lookup "enable_video_processing_ui" (serializeRoomPropertiesBuilder b)
        = b.enable_video_processing_ui.map Json.bool := lk .enable_video_processing_ui
  have lk_enable_chat : List.lookup "enable_chat" (serializeRoomPropertiesBuilder b)
        = b.enable_chat.map Json.bool := lk .enable_chat
  have lk_start_video_off : List.lookup "start_video_off" (serializeRoomPropertiesBuilder b)
        = b.start_video_off.map Json.bool := lk .start_video_off
  have lk_start_audio_off : List.lookup "start_audio_off" (serializeRoomPropertiesBuilder b)
        = b.start_audio_off.map Json.bool := lk .start_audio_off
  have lk_owner_only_broadcast : List.lookup "owner_only_broadcast" (serializeRoomPropertiesBuilder b)
        = b.owner_only_broadcast.map Json.bool := lk .owner_only_broadcast
  have lk_enable_recording : List.lookup "enable_recording" (serializeRoomPropertiesBuilder b)
        = b.enable_recording.map encRecordingType := lk .enable_recording
  have lk_eject_at_room_exp : List.lookup "eject_at_room_exp" (serializeRoomPropertiesBuilder b)
        = b.eject_at_room_exp.map Json.bool := lk .eject_at_room_exp
  have lk_eject_after_elapsed : List.lookup "eject_after_elapsed" (serializeRoomPropertiesBuilder b)
        = b.eject_after_elapsed.map encInt := lk .eject_after_elapsed
  have lk_enable_hidden_participants : List.lookup "enable_hidden_participants" (serializeRoomPropertiesBuilder b)
        = b.enable_hidden_participants.map Json.bool := lk .enable_hidden_participants
  have lk_enable_mesh_sfu : List.lookup "enable_mesh_sfu" (serializeRoomPropertiesBuilder b)
        = b.enable_mesh_sfu.map Json.bool := lk .enable_mesh_sfu
  have lk_experimental_optimize_large_calls : List.lookup "experimental_optimize_large_calls" (serializeRoomPropertiesBuilder b)
        = b.experimental_optimize_large_calls.map Json.bool := lk .experimental_optimize_large_calls
  have lk_lang : List.lookup "lang" (serializeRoomPropertiesBuilder b)
        = b.lang.map encDailyLang := lk .lang
  have lk_meeting_join_hook : List.lookup "meeting_join_hook" (serializeRoomPropertiesBuilder b)
        = b.meeting_join_hook.map Json.str := lk .meeting_join_hook
  have lk_signaling_imp : List.lookup "signaling_imp" (serializeRoomPropertiesBuilder b)
        = b.signaling_imp.map encSignalingImp := lk .signaling_imp
  have lk_geo : List.lookup "geo" (serializeRoomPropertiesBuilder b)
        = b.geo.map encRegion := lk .geo
  have lk_rtmp_geo : List.lookup "rtmp_geo" (serializeRoomPropertiesBuilder b)
        = b.rtmp_geo.map encRtmpGeoRegion := lk .rtmp_geo
  have lk_enable_terse_logging : List.lookup "enable_terse_logging" (serializeRoomPropertiesBuilder b)
        = b.enable_terse_logging.map Json.bool := lk .enable_terse_logging
  have lk_recordings_template : List.lookup "recordings_template" (serializeRoomPropertiesBuilder b)
        = b.recordings_template.map Json.str := lk .recordings_template
  have lk_recordings_bucket : List.lookup "recordings_bucket" (serializeRoomPropertiesBuilder b)
        = b.recordings_bucket.map encRecordingsBucket := lk .recordings_bucket
  have lk_sfu_switchover : List.lookup "sfu_switchover" (serializeRoomPropertiesBuilder b)
        = b.sfu_switchover.map Json.num := lk .sfu_switchover
  unfold decodeRoomPropertiesFields
  rw [getOptD_eq lk_nbf decInt_encInt encInt_notNull,
      getOptD_eq lk_exp decInt_encInt encInt_notNull,
      getOptD_eq lk_max_participants decNat_encNat encNat_notNull,
      getOptD_eq lk_enable_people_ui decBool_bool encBool_notNull,
      getD_eq lk_enable_pip_ui decBool_bool,
      getOptD_eq lk_enable_prejoin_ui decBool_bool encBool_notNull,
      getD_eq lk_enable_network_ui decBool_bool,
      getD_eq lk_enable_knocking decBool_bool,
      getD_eq lk_enable_screenshare decBool_bool,
      getD_eq lk_enable_video_processing_ui decBool_bool,
      getD_eq lk_enable_chat decBool_bool,
      getD_eq lk_start_video_off decBool_bool,
      getD_eq lk_start_audio_off decBool_bool,
      getD_eq lk_owner_only_broadcast decBool_bool,
      getOptD_eq lk_enable_recording decRecordingType_enc encRecordingType_notNull,
      getD_eq lk_eject_at_room_exp decBool_bool,
      getOptD_eq lk_eject_after_elapsed decInt_encInt encInt_notNull,
      getD_eq lk_enable_hidden_participants decBool_bool,
      getOptD_eq lk_enable_mesh_sfu decBool_bool encBool_notNull,
      getOptD_eq lk_experimental_optimize_large_calls decBool_bool encBool_notNull,
      getD_eq lk_lang decDailyLang_enc,
      getOptD_eq lk_meeting_join_hook decStr_str encStr_notNull,
      getD_eq lk_signaling_imp decSignalingImp_enc,
      getOptD_eq lk_geo decRegion_encRegion encRegion_notNull,
      getOptD_eq lk_rtmp_geo decRtmpGeoRegion_enc encRtmpGeoRegion_notNull,
      getD_eq lk_enable_terse_logging decBool_bool,
      getOptD_eq lk_recordings_template decStr_str encStr_notNull,
      getOptD_eq lk_recordings_bucket decRecordingsBucket_enc encRecordingsBucket_notNull,
      getOptD_eq lk_sfu_switchover decRat_num encNum_notNull]
  rfl

/-- If a response object decodes successfully to a `RoomProperties` entity,
each defaulted field of the entity is exactly what the corresponding
field-getter produced. -/
theorem decodeRPF_fields {fs : List (String × Json)} {rp : RoomProperties}
    (h : decodeRoomPropertiesFields fs = some rp) :
    getD fs "enable_screenshare" decBool default_as_true = some rp.enable_screenshare
    ∧ getD fs "enable_chat" decBool false = some rp.enable_chat
    ∧ getD fs "lang" decDailyLang DailyLang.default = some rp.lang := by
  unfold decodeRoomPropertiesFields at h
  repeat'
    first
      | exact Option.noConfusion h
      | exact Option.noConfusion h.symm
      | split at h
  all_goals cases h
  all_goals exact ⟨by assumption, by assumption, by assumption⟩

/-! ## `src/meeting_token.rs`: `CreateMeetingToken` builder and `MeetingToken` entity -/

/-- A `CreateMeetingToken` (also `MeetingTokenBuilder` in an earlier
revision of the crate) accumulates the configuration for a `Daily` meeting
token (`#[derive(Serialize, Default)]`, every field skip-if-none). -/
structure CreateMeetingToken where
  room_name : Option String := none
  eject_at_token_exp : Option Bool := none
  eject_after_elapsed : Option Int := none
  nbf : Option Int := none
  exp : Option Int := none
  is_owner : Option Bool := none
  user_name : Option String := none
  user_id : Option String := none
  enable_screenshare : Option Bool := none
  start_video_off : Option Bool := none
  start_audio_off : Option Bool := none
  enable_recording : Option RecordingType := none
  enable_prejoin_ui : Option Bool := none
  enable_terse_logging : Option Bool := none
  start_cloud_recording : Option Bool := none
  close_tab_on_exit : Option Bool := none
  redirect_on_meeting_exit : Option String := none
  lang : Option DailyLang := none
deriving DecidableEq

/-- `CreateMeetingToken::new()` = `Self::default()`: all fields unset. -/
def CreateMeetingToken.new : CreateMeetingToken := {}

def CreateMeetingToken.set_room_name (b : CreateMeetingToken) (v : String) : CreateMeetingToken :=
  { b with room_name := some v }

def CreateMeetingToken.set_eject_at_token_exp (b : CreateMeetingToken) (v : Bool) : CreateMeetingToken :=
  { b with eject_at_token_exp := some v }

def CreateMeetingToken.set_eject_after_elapsed (b : CreateMeetingToken) (v : Int) : CreateMeetingToken :=
  { b with eject_after_elapsed := some v }

def CreateMeetingToken.set_nbf (b : CreateMeetingToken) (v : Int) : CreateMeetingToken :=
  { b with nbf := some v }

def CreateMeetingToken.set_exp (b : CreateMeetingToken) (v : Int) : CreateMeetingToken :=
  { b with exp := some v }

def CreateMeetingToken.set_is_owner (b : CreateMeetingToken) (v : Bool) : CreateMeetingToken :=
  { b with is_owner := some v }

def CreateMeetingToken.set_user_name (b : CreateMeetingToken) (v : String) : CreateMeetingToken :=
  { b with user_name := some v }

def CreateMeetingToken.set_user_id (b : CreateMeetingToken) (v : String) : CreateMeetingToken :=
  { b with user_id := some v }

def CreateMeetingToken.set_enable_screenshare (b : CreateMeetingToken) (v : Bool) : CreateMeetingToken :=
  { b with enable_screenshare := some v }

def CreateMeetingToken.set_start_video_off (b : CreateMeetingToken) (v : Bool) : CreateMeetingToken :=
  { b with start_video_off := some v }

def CreateMeetingToken.set_start_audio_off (b : CreateMeetingToken) (v : Bool) : CreateMeetingToken :=
  { b with start_audio_off := some v }

def CreateMeetingToken.set_enable_recording (b : CreateMeetingToken) (v : RecordingType) : CreateMeetingToken :=
  { b with enable_recording := some v }

def CreateMeetingToken.set_enable_prejoin_ui (b : CreateMeetingToken) (v : Bool) : CreateMeetingToken :=
  { b with enable_prejoin_ui := some v }

def CreateMeetingToken.set_enable_terse_logging (b : CreateMeetingToken) (v : Bool) : CreateMeetingToken :=
  { b with enable_terse_logging := some v }

def CreateMeetingToken.set_start_cloud_recording (b : CreateMeetingToken) (v : Bool) : CreateMeetingToken :=
  { b with start_cloud_recording := some v }

def CreateMeetingToken.set_close_tab_on_exit (b : CreateMeetingToken) (v : Bool) : CreateMeetingToken :=
  { b with close_tab_on_exit := some v }

def CreateMeetingToken.set_redirect_on_meeting_exit (b : CreateMeetingToken) (v : String) : CreateMeetingToken :=
  { b with redirect_on_meeting_exit := some v }

def CreateMeetingToken.set_lang (b : CreateMeetingToken) (v : DailyLang) : CreateMeetingToken :=
  { b with lang := some v }

/-- One name per field of `CreateMeetingToken`/`MeetingToken`, in
declaration order. -/
inductive CMTField where
  | room_name | eject_at_token_exp | eject_after_elapsed | nbf | exp
  | is_owner | user_name | user_id | enable_screenshare | start_video_off
  | start_audio_off | enable_recording | enable_prejoin_ui
  | enable_terse_logging | start_cloud_recording | close_tab_on_exit
  | redirect_on_meeting_exit | lang
deriving DecidableEq

def allCMTFields : List CMTField :=
  [.room_name, .eject_at_token_exp, .eject_after_elapsed, .nbf, .exp,
   .is_owner, .user_name, .user_id, .enable_screenshare, .start_video_off,
   .start_audio_off, .enable_recording, .enable_prejoin_ui,
   .enable_terse_logging, .start_cloud_recording, .close_tab_on_exit,
   .redirect_on_meeting_exit, .lang]

/-- The JSON key used by the network-request serializer (serde uses the
field name verbatim). -/
def cmtKey : CMTField → String
  | .room_name => "room_name"
  | .eject_at_token_exp => "eject_at_token_exp"
  | .eject_after_elapsed => "eject_after_elapsed"
  | .nbf => "nbf"
  | .exp => "exp"
  | .is_owner => "is_owner"
  | .user_name => "user_name"
  | .user_id => "user_id"
  | .enable_screenshare => "enable_screenshare"
  | .start_video_off => "start_video_off"
  | .start_audio_off => "start_audio_off"
  | .enable_recording => "enable_recording"
  | .enable_prejoin_ui => "enable_prejoin_ui"
  | .enable_terse_logging => "enable_terse_logging"
  | .start_cloud_recording => "start_cloud_recording"
  | .close_tab_on_exit => "close_tab_on_exit"
  | .redirect_on_meeting_exit => "redirect_on_meeting_exit"
  | .lang => "lang"

/-- A builder field's contribution to the serialized request object. -/
def readCMT : CMTField → CreateMeetingToken → Option Json
  | .room_name, b => b.room_name.map .str
  | .eject_at_token_exp, b => b.eject_at_token_exp.map .bool
  | .eject_after_elapsed, b => b.eject_after_elapsed.map encInt
  | .nbf, b => b.nbf.map encInt
  | .exp, b => b.exp.map encInt
  | .is_owner, b => b.is_owner.map .bool
  | .user_name, b => b.user_name.map .str
  | .user_id, b => b.user_id.map .str
  | .enable_screenshare, b => b.enable_screenshare.map .bool
  | .start_video_off, b => b.start_video_off.map .bool
  | .start_audio_off, b => b.start_audio_off.map .bool
  | .enable_recording, b => b.enable_recording.map encRecordingType
  | .enable_prejoin_ui, b => b.enable_prejoin_ui.map .bool
  | .enable_terse_logging, b => b.enable_terse_logging.map .bool
  | .start_cloud_recording, b => b.start_cloud_recording.map .bool
  | .close_tab_on_exit, b => b.close_tab_on_exit.map .bool
  | .redirect_on_meeting_exit, b => b.redirect_on_meeting_exit.map .str
  | .lang, b => b.lang.map encDailyLang

/-- serde `Serialize` for `CreateMeetingToken`: every field skip-if-none,
in declaration order, under the full JSON field names. -/
def serializeCreateMeetingToken (b : CreateMeetingToken) : List (String × Json) :=
  enumObj allCMTFields cmtKey readCMT b

theorem mem_allCMTFields (g : CMTField) : g ∈ allCMTFields := by
  cases g <;> decide

theorem nodup_cmtKeys : (allCMTFields.map cmtKey).Nodup := by decide

theorem lookup_serializeCMT (b : CreateMeetingToken) (g : CMTField) :
    List.lookup (cmtKey g) (serializeCreateMeetingToken b) = readCMT g b :=
  lookup_enumObj nodup_cmtKeys (mem_allCMTFields g)

/-- A `MeetingToken` entity: the configuration of a meeting token as
reported back by `Daily` (`#[derive(Deserialize)]` with per-field
defaults). -/
structure MeetingToken where
  room_name : Option String
  eject_at_token_exp : Bool
  eject_after_elapsed : Option Int
  nbf : Option Int
  exp : Option Int
  is_owner : Bool
  user_name : Option String
  user_id : Option String
  enable_screenshare : Bool
  start_video_off : Bool
  start_audio_off : Bool
  enable_recording : Option RecordingType
  enable_prejoin_ui : Option Bool
  enable_terse_logging : Bool
  start_cloud_recording : Bool
  close_tab_on_exit : Bool
  redirect_on_meeting_exit : Option String
  lang : Option DailyLang
deriving DecidableEq

def decodeMeetingTokenFields (fs : List (String × Json)) : Option MeetingToken :=
  match getOptD fs "room_name" decStr with
  | none => none
  | some room_name =>
  match getD fs "eject_at_token_exp" decBool false with
  | none => none
  | some eject_at_token_exp =>
  match getOptD fs "eject_after_elapsed" decInt with
  | none => none
  | some eject_after_elapsed =>
  match getOptD fs "nbf" decInt with
  | none => none
  | some nbf =>
  match getOptD fs "exp" decInt with
  | none => none
  | some exp =>
  match getD fs "is_owner" decBool false with
  | none => none
  | some is_owner =>
  match getOptD fs "user_name" decStr with
  | none => none
  | some user_name =>
  match getOptD fs "user_id" decStr with
  | none => none
  | some user_id =>
  match getD fs "enable_screenshare" decBool default_as_true with
  | none => none
  | some enable_screenshare =>
  match getD fs "start_video_off" decBool false with
  | none => none
  | some start_video_off =>
  match getD fs "start_audio_off" decBool false with
  | none => none
  | some start_audio_off =>
  match getOptD fs "enable_recording" decRecordingType with
  | none => none
  | some enable_recording =>
  match getOptD fs "enable_prejoin_ui" decBool with
  | none => none
  | some enable_prejoin_ui =>
  match getD fs "enable_terse_logging" decBool false with
  | none => none
  | some enable_terse_logging =>
  match getD fs "start_cloud_recording" decBool false with
  | none => none
  | some start_cloud_recording =>
  match getD fs "close_tab_on_exit" decBool false with
  | none => none
  | some close_tab_on_exit =>
  match getOptD fs "redirect_on_meeting_exit" decStr with
  | none => none
  | some redirect_on_meeting_exit =>
  match getOptD fs "lang" decDailyLang with
  | none => none
  | some lang =>
  some (MeetingToken.mk room_name eject_at_token_exp eject_after_elapsed
    nbf exp is_owner user_name user_id enable_screenshare start_video_off
    start_audio_off enable_recording enable_prejoin_ui enable_terse_logging
    start_cloud_recording close_tab_on_exit redirect_on_meeting_exit lang)

/-- serde `Deserialize` for `MeetingToken`. Note that the entity's `lang`
is an `Option` with no default (absent deserializes to `None`), unlike
`RoomProperties.lang`. -/
def decodeMeetingToken : Json → Option MeetingToken
  | .obj fs => decodeMeetingTokenFields fs
  | _ => none

/-- `impl From<CreateMeetingToken> for MeetingToken`: the materialized
token configuration corresponding to a builder state (`unwrap_or_default`
for defaulted booleans, `unwrap_or(true)` for `enable_screenshare`). -/
def MeetingToken.ofBuilder (b : CreateMeetingToken) : MeetingToken where
  room_name := b.room_name
  eject_at_token_exp := b.eject_at_token_exp.getD false
  eject_after_elapsed := b.eject_after_elapsed
  nbf := b.nbf
  exp := b.exp
  is_owner := b.is_owner.getD false
  user_name := b.user_name
  user_id := b.user_id
  enable_screenshare := b.enable_screenshare.getD true
  start_video_off := b.start_video_off.getD false
  start_audio_off := b.start_audio_off.getD false
  enable_recording := b.enable_recording
  enable_prejoin_ui := b.enable_prejoin_ui
  enable_terse_logging := b.enable_terse_logging.getD false
  start_cloud_recording := b.start_cloud_recording.getD false
  close_tab_on_exit := b.close_tab_on_exit.getD false
  redirect_on_meeting_exit := b.redirect_on_meeting_exit
  lang := b.lang

/-- Serializing a `CreateMeetingToken` and deserializing the result as a
`MeetingToken` entity succeeds, yields exactly the `From`-materialization
of the builder, and in particular preserves every set field. -/
theorem decode_serialize_cmt (b : CreateMeetingToken) :
    decodeMeetingToken (.obj (serializeCreateMeetingToken b))
      = some (MeetingToken.ofBuilder b) := by
  have lk : ∀ g : CMTField,
      List.lookup (cmtKey g) (serializeCreateMeetingToken b) = readCMT g b :=
    lookup_serializeCMT b
  have lk_room_name : List.lookup "room_name" (serializeCreateMeetingToken b)
        = b.room_name.map Json.str := lk .room_name
  have lk_eject_at_token_exp : List.lookup "eject_at_token_exp" (serializeCreateMeetingToken b)
        = b.eject_at_token_exp.map Json.bool := lk .eject_at_token_exp
  have lk_eject_after_elapsed : List.lookup "eject_after_elapsed" (serializeCreateMeetingToken b)
        = b.eject_after_elapsed.map encInt := lk .eject_after_elapsed
  have lk_nbf : List.lookup "nbf" (serializeCreateMeetingToken b)
        = b.nbf.map encInt := lk .nbf
  have lk_exp : List.lookup "exp" (serializeCreateMeetingToken b)
        = b.exp.map encInt := lk .exp
  have lk_is_owner : List.lookup "is_owner" (serializeCreateMeetingToken b)
        = b.is_owner.map Json.bool := lk .is_owner
  have lk_user_name : List.lookup "user_name" (serializeCreateMeetingToken b)
        = b.user_name.map Json.str := lk .user_name
  have lk_user_id : List.lookup "user_id" (serializeCreateMeetingToken b)
        = b.user_id.map Json.str := lk .user_id
  have lk_enable_screenshare : List.lookup "enable_screenshare" (serializeCreateMeetingToken b)
        = b.enable_screenshare.map Json.bool := lk .enable_screenshare
  have lk_start_video_off : List.lookup "start_video_off" (serializeCreateMeetingToken b)
        = b.start_video_off.map Json.bool := lk .start_video_off
  have lk_start_audio_off : List.lookup "start_audio_off" (serializeCreateMeetingToken b)
        = b.start_audio_off.map Json.bool := lk .start_audio_off
  have lk_enable_recording : List.lookup "enable_recording" (serializeCreateMeetingToken b)
        = b.enable_recording.map encRecordingType := lk .enable_recording
  have lk_enable_prejoin_ui : List.lookup "enable_prejoin_ui" (serializeCreateMeetingToken b)
        = b.enable_prejoin_ui.map Json.bool := lk .enable_prejoin_ui
  have lk_enable_terse_logging : List.lookup "enable_terse_logging" (serializeCreateMeetingToken b)
        = b.enable_terse_logging.map Json.bool := lk .enable_terse_logging
  have lk_start_cloud_recording : List.lookup "start_cloud_recording" (serializeCreateMeetingToken b)
        = b.start_cloud_recording.map Json.bool := lk .start_cloud_recording
  have lk_close_tab_on_exit : List.lookup "close_tab_on_exit" (serializeCreateMeetingToken b)
        = b.close_tab_on_exit.map Json.bool := lk .close_tab_on_exit
  have lk_redirect_on_meeting_exit : List.lookup "redirect_on_meeting_exit" (serializeCreateMeetingToken b)
        = b.redirect_on_meeting_exit.map Json.str := lk .redirect_on_meeting_exit
  have lk_lang : List.lookup "lang" (serializeCreateMeetingToken b)
        = b.lang.map encDailyLang := lk .lang
  show decodeMeetingTokenFields (serializeCreateMeetingToken b)
        = some (MeetingToken.ofBuilder b)
  unfold decodeMeetingTokenFields
  rw [getOptD_eq lk_room_name decStr_str encStr_notNull,
      getD_eq lk_eject_at_token_exp decBool_bool,
      getOptD_eq lk_eject_after_elapsed decInt_encInt encInt_notNull,
      getOptD_eq lk_nbf decInt_encInt encInt_notNull,
      getOptD_eq lk_exp decInt_encInt encInt_notNull,
      getD_eq lk_is_owner decBool_bool,
      getOptD_eq lk_user_name decStr_str encStr_notNull,
      getOptD_eq lk_user_id decStr_str encStr_notNull,
      getD_eq lk_enable_screenshare decBool_bool,
      getD_eq lk_start_video_off decBool_bool,
      getD_eq lk_start_audio_off decBool_bool,
      getOptD_eq lk_enable_recording decRecordingType_enc encRecordingType_notNull,
      getOptD_eq lk_enable_prejoin_ui decBool_bool encBool_notNull,
      getD_eq lk_enable_terse_logging decBool_bool,
      getD_eq lk_start_cloud_recording decBool_bool,
      getD_eq lk_close_tab_on_exit decBool_bool,
      getOptD_eq lk_redirect_on_meeting_exit decStr_str encStr_notNull,
      getOptD_eq lk_lang decDailyLang_enc encDailyLang_notNull]
  rfl

/-! ## `src/self_sign_token.rs`: offline token signing -/

/-- The token builder under its compact claim-name serde renaming
(`MeetingTokenBuilderRenamed`): same fields, same skip-if-none rule, short
claim keys. -/
structure MeetingTokenBuilderRenamed where
  room_name : Option String := none
  eject_at_token_exp : Option Bool := none
  eject_after_elapsed : Option Int := none
  nbf : Option Int := none
  exp : Option Int := none
  is_owner : Option Bool := none
  user_name : Option String := none
  user_id : Option String := none
  enable_screenshare : Option Bool := none
  start_video_off : Option Bool := none
  start_audio_off : Option Bool := none
  enable_recording : Option RecordingType := none
  enable_prejoin_ui : Option Bool := none
  enable_terse_logging : Option Bool := none
  start_cloud_recording : Option Bool := none
  close_tab_on_exit : Option Bool := none
  redirect_on_meeting_exit : Option String := none
  lang : Option DailyLang := none
deriving DecidableEq

/-- `impl From<MeetingTokenBuilder> for MeetingTokenBuilderRenamed`:
verbatim field-by-field copy. -/
def MeetingTokenBuilderRenamed.ofBuilder (b : CreateMeetingToken) : MeetingTokenBuilderRenamed where
  room_name := b.room_name
  eject_at_token_exp := b.eject_at_token_exp
  eject_after_elapsed := b.eject_after_elapsed
  nbf := b.nbf
  exp := b.exp
  is_owner := b.is_owner
  user_name := b.user_name
  user_id := b.user_id
  enable_screenshare := b.enable_screenshare
  start_video_off := b.start_video_off
  start_audio_off := b.start_audio_off
  enable_recording := b.enable_recording
  enable_prejoin_ui := b.enable_prejoin_ui
  enable_terse_logging := b.enable_terse_logging
  start_cloud_recording := b.start_cloud_recording
  close_tab_on_exit := b.close_tab_on_exit
  redirect_on_meeting_exit := b.redirect_on_meeting_exit
  lang := b.lang

/-- The serde `rename = "..."` claim key of each token field. -/
def claimKey : CMTField → String
  | .room_name => "r"
  | .eject_at_token_exp => "ejt"
  | .eject_after_elapsed => "eje"
  | .nbf => "nbf"
  | .exp => "exp"
  | .is_owner => "o"
  | .user_name => "u"
  | .user_id => "ud"
  | .enable_screenshare => "ss"
  | .start_video_off => "vo"
  | .start_audio_off => "ao"
  | .enable_recording => "er"
  | .enable_prejoin_ui => "enable_prejoin_ui"
  | .enable_terse_logging => "enable_terse_logging"
  | .start_cloud_recording => "sr"
  | .close_tab_on_exit => "ctoe"
  | .redirect_on_meeting_exit => "rome"
  | .lang => "uil"

/-- A renamed-builder field's contribution to the claim set. -/
def readRenamed : CMTField → MeetingTokenBuilderRenamed → Option Json
  | .room_name, b => b.room_name.map .str
  | .eject_at_token_exp, b => b.eject_at_token_exp.map .bool
  | .eject_after_elapsed, b => b.eject_after_elapsed.map encInt
  | .nbf, b => b.nbf.map encInt
  | .exp, b => b.exp.map encInt
  | .is_owner, b => b.is_owner.map .bool
  | .user_name, b => b.user_name.map .str
  | .user_id, b => b.user_id.map .str
  | .enable_screenshare, b => b.enable_screenshare.map .bool
  | .start_video_off, b => b.start_video_off.map .bool
  | .start_audio_off, b => b.start_audio_off.map .bool
  | .enable_recording, b => b.enable_recording.map encRecordingType
  | .enable_prejoin_ui, b => b.enable_prejoin_ui.map .bool
  | .enable_terse_logging, b => b.enable_terse_logging.map .bool
  | .start_cloud_recording, b => b.start_cloud_recording.map .bool
  | .close_tab_on_exit, b => b.close_tab_on_exit.map .bool
  | .redirect_on_meeting_exit, b => b.redirect_on_meeting_exit.map .str
  | .lang, b => b.lang.map encDailyLang

/-- serde `Serialize` for `MeetingTokenBuilderRenamed`: every field
skip-if-none, in declaration order, under the short claim keys. -/
def serializeRenamed (b : MeetingTokenBuilderRenamed) : List (String × Json) :=
  enumObj allCMTFields claimKey readRenamed b

theorem nodup_claimKeys : (allCMTFields.map claimKey).Nodup := by decide

theorem lookup_serializeRenamed (b : MeetingTokenBuilderRenamed) (g : CMTField) :
    List.lookup (claimKey g) (serializeRenamed b) = readRenamed g b :=
  lookup_enumObj nodup_claimKeys (mem_allCMTFields g)

/-- The renamed copy reads each field exactly as the original builder. -/
theorem readRenamed_ofBuilder (g : CMTField) (b : CreateMeetingToken) :
    readRenamed g (MeetingTokenBuilderRenamed.ofBuilder b) = readCMT g b := by
  cases g <;> rfl

/-- The decoded payload claim set of `self_sign_token(config, domain_id,
secret_key)`: the `SelfSigningTokenPayload` serializes its domain-id claim
`d` first, followed by the `#[serde(flatten)]`-ed renamed builder fields.
The JWT encoding/signing step (`jsonwebtoken::encode`, an external
collaborator) maps this claim set injectively into the token string, so
the claim set is the decoded payload of the produced token. -/
def selfSignTokenClaims (config : CreateMeetingToken) (domain_id : String) : List (String × Json) :=
  ("d", .str domain_id) :: serializeRenamed (.ofBuilder config)

/-! ## `src/room.rs`: `RoomBuilder`, its private `RoomPropertiesBuilder`, and `Room` -/

/-- Video room visibility (`#[serde(rename_all = "lowercase")]`). The
`Private` variant is named `private_` here because `private` is a Lean
keyword. -/
inductive RoomPrivacy where
  | public | private_
deriving DecidableEq

/-- `impl Default for RoomPrivacy`: matching the dailyco default. -/
def RoomPrivacy.default : RoomPrivacy := .public

def encRoomPrivacy : RoomPrivacy → Json
  | .public => .str "public"
  | .private_ => .str "private"

namespace room

/-- `room.rs`'s own private `RoomPropertiesBuilder` (a historical duplicate
of the public one, without the `recordings_template`, `recordings_bucket`
and `sfu_switchover` fields), serialized under
`#[serde_with::skip_serializing_none]`. -/
structure RoomPropertiesBuilder where
  nbf : Option Int := none
  exp : Option Int := none
  max_participants : Option Nat := none
  enable_people_ui : Option Bool := none
  enable_pip_ui : Option Bool := none
  enable_prejoin_ui : Option Bool := none
  enable_network_ui : Option Bool := none
  enable_knocking : Option Bool := none
  enable_screenshare : Option Bool := none
  enable_video_processing_ui : Option Bool := none
  enable_chat : Option Bool := none
  start_video_off : Option Bool := none
  start_audio_off : Option Bool := none
  owner_only_broadcast : Option Bool := none
  enable_recording : Option RecordingType := none
  eject_at_room_exp : Option Bool := none
  eject_after_elapsed : Option Int := none
  enable_hidden_participants : Option Bool := none
  enable_mesh_sfu : Option Bool := none
  experimental_optimize_large_calls : Option Bool := none
  lang : Option DailyLang := none
  meeting_join_hook : Option String := none
  signaling_imp : Option SignalingImp := none
  geo : Option Region := none
  rtmp_geo : Option RtmpGeoRegion := none
  enable_terse_logging : Option Bool := none
deriving DecidableEq

/-- One name per field of `room.rs`'s private properties builder, in
declaration order. -/
inductive RPBField where
  | nbf | exp | max_participants | enable_people_ui | enable_pip_ui
  | enable_prejoin_ui | enable_network_ui | enable_knocking
  | enable_screenshare | enable_video_processing_ui | enable_chat
  | start_video_off | start_audio_off | owner_only_broadcast
  | enable_recording | eject_at_room_exp | eject_after_elapsed
  | enable_hidden_participants | enable_mesh_sfu
  | experimental_optimize_large_calls | lang | meeting_join_hook
  | signaling_imp | geo | rtmp_geo | enable_terse_logging
deriving DecidableEq

def allRPBFields : List RPBField :=
  [.nbf, .exp, .max_participants, .enable_people_ui, .enable_pip_ui,
   .enable_prejoin_ui, .enable_network_ui, .enable_knocking,
   .enable_screenshare, .enable_video_processing_ui, .enable_chat,
   .start_video_off, .start_audio_off, .owner_only_broadcast,
   .enable_recording, .eject_at_room_exp, .eject_after_elapsed,
   .enable_hidden_participants, .enable_mesh_sfu,
   .experimental_optimize_large_calls, .lang, .meeting_join_hook,
   .signaling_imp, .geo, .rtmp_geo, .enable_terse_logging]

def rpbKey : RPBField → String
  | .nbf => "nbf"
  | .exp => "exp"
  | .max_participants => "max_participants"
  | .enable_people_ui => "enable_people_ui"
  | .enable_pip_ui => "enable_pip_ui"
  | .enable_prejoin_ui => "enable_prejoin_ui"
  | .enable_network_ui => "enable_network_ui"
  | .enable_knocking => "enable_knocking"
  | .enable_screenshare => "enable_screenshare"
  | .enable_video_processing_ui => "enable_video_processing_ui"
  | .enable_chat => "enable_chat"
  | .start_video_off => "start_video_off"
  | .start_audio_off => "start_audio_off"
  | .owner_only_broadcast => "owner_only_broadcast"
  | .enable_recording => "enable_recording"
  | .eject_at_room_exp => "eject_at_room_exp"
  | .eject_after_elapsed => "eject_after_elapsed"
  | .enable_hidden_participants => "enable_hidden_participants"
  | .enable_mesh_sfu => "enable_mesh_sfu"
  | .experimental_optimize_large_calls => "experimental_optimize_large_calls"
  | .lang => "lang"
  | .meeting_join_hook => "meeting_join_hook"
  | .signaling_imp => "signaling_imp"
  | .geo => "geo"
  | .rtmp_geo => "rtmp_geo"
  | .enable_terse_logging => "enable_terse_logging"

def readRPBInner : RPBField → RoomPropertiesBuilder → Option Json
  | .nbf, b => b.nbf.map encInt
  | .exp, b => b.exp.map encInt
  | .max_participants, b => b.max_participants.map encNat
  | .enable_people_ui, b => b.enable_people_ui.map .bool
  | .enable_pip_ui, b => b.enable_pip_ui.map .bool
  | .enable_prejoin_ui, b => b.enable_prejoin_ui.map .bool
  | .enable_network_ui, b => b.enable_network_ui.map .bool
  | .enable_knocking, b => b.enable_knocking.map .bool
  | .enable_screenshare, b => b.enable_screenshare.map .bool
  | .enable_video_processing_ui, b => b.enable_video_processing_ui.map .bool
  | .enable_chat, b => b.enable_chat.map .bool
  | .start_video_off, b => b.start_video_off.map .bool
  | .start_audio_off, b => b.start_audio_off.map .bool
  | .owner_only_broadcast, b => b.owner_only_broadcast.map .bool
  | .enable_recording, b => b.enable_recording.map encRecordingType
  | .eject_at_room_exp, b => b.eject_at_room_exp.map .bool
  | .eject_after_elapsed, b => b.eject_after_elapsed.map encInt
  | .enable_hidden_participants, b => b.enable_hidden_participants.map .bool
  | .enable_mesh_sfu, b => b.enable_mesh_sfu.map .bool
  | .experimental_optimize_large_calls, b => b.experimental_optimize_large_calls.map .bool
  | .lang, b => b.lang.map encDailyLang
  | .meeting_join_hook, b => b.meeting_join_hook.map .str
  | .signaling_imp, b => b.signaling_imp.map encSignalingImp
  | .geo, b => b.geo.map encRegion
  | .rtmp_geo, b => b.rtmp_geo.map encRtmpGeoRegion
  | .enable_terse_logging, b => b.enable_terse_logging.map .bool

/-- serde `Serialize` for `room.rs`'s private properties builder. -/
def serializeRoomPropertiesBuilder (b : RoomPropertiesBuilder) : List (String × Json) :=
  enumObj allRPBFields rpbKey readRPBInner b

theorem mem_allRPBFields (g : RPBField) : g ∈ allRPBFields := by
  cases g <;> decide

theorem nodup_rpbKeys : (allRPBFields.map rpbKey).Nodup := by decide

theorem lookup_serializeRPBInner (b : RoomPropertiesBuilder) (g : RPBField) :
    List.lookup (rpbKey g) (serializeRoomPropertiesBuilder b) = readRPBInner g b :=
  lookup_enumObj nodup_rpbKeys (mem_allRPBFields g)

end room

/-- A `RoomBuilder` for creating a `Daily` room: the top-level identity
fields plus the embedded property bag
(`#[serde_with::skip_serializing_none]`; the non-`Option` `properties`
field is always serialized). -/
structure RoomBuilder where
  name : Option String := none
  privacy : Option RoomPrivacy := none
  properties : room.RoomPropertiesBuilder := {}
deriving DecidableEq

/-- `RoomBuilder::new()` = `Self::default()`. -/
def RoomBuilder.new : RoomBuilder := {}

def RoomBuilder.set_name (b : RoomBuilder) (v : String) : RoomBuilder :=
  { b with name := some v }

def RoomBuilder.set_privacy (b : RoomBuilder) (v : RoomPrivacy) : RoomBuilder :=
  { b with privacy := some v }

def RoomBuilder.set_nbf (b : RoomBuilder) (v : Int) : RoomBuilder :=
  { b with properties := { b.properties with nbf := some v } }

def RoomBuilder.set_exp (b : RoomBuilder) (v : Int) : RoomBuilder :=
  { b with properties := { b.properties with exp := some v } }

def RoomBuilder.set_max_participants (b : RoomBuilder) (v : Nat) : RoomBuilder :=
  { b with properties := { b.properties with max_participants := some v } }

def RoomBuilder.set_enable_people_ui (b : RoomBuilder) (v : Bool) : RoomBuilder :=
  { b with properties := { b.properties with enable_people_ui := some v } }

def RoomBuilder.set_enable_pip_ui (b : RoomBuilder) (v : Bool) : RoomBuilder :=
  { b with properties := { b.properties with enable_pip_ui := some v } }

def RoomBuilder.set_enable_prejoin_ui (b : RoomBuilder) (v : Bool) : RoomBuilder :=
  { b with properties := { b.properties with enable_prejoin_ui := some v } }

def RoomBuilder.set_enable_network_ui (b : RoomBuilder) (v : Bool) : RoomBuilder :=
  { b with properties := { b.properties with enable_network_ui := some v } }

def RoomBuilder.set_enable_knocking (b : RoomBuilder) (v : Bool) : RoomBuilder :=
  { b with properties := { b.properties with enable_knocking := some v } }

def RoomBuilder.set_enable_screenshare (b : RoomBuilder) (v : Bool) : RoomBuilder :=
  { b with properties := { b.properties with enable_screenshare := some v } }

def RoomBuilder.set_enable_video_processing_ui (b : RoomBuilder) (v : Bool) : RoomBuilder :=
  { b with properties := { b.properties with enable_video_processing_ui := some v } }

def RoomBuilder.set_enable_chat (b : RoomBuilder) (v : Bool) : RoomBuilder :=
  { b with properties := { b.properties with enable_chat := some v } }

def RoomBuilder.set_start_video_off (b : RoomBuilder) (v : Bool) : RoomBuilder :=
  { b with properties := { b.properties with start_video_off := some v } }

def RoomBuilder.set_start_audio_off (b : RoomBuilder) (v : Bool) : RoomBuilder :=
  { b with properties := { b.properties with start_audio_off := some v } }

def RoomBuilder.set_owner_only_broadcast (b : RoomBuilder) (v : Bool) : RoomBuilder :=
  { b with properties := { b.properties with owner_only_broadcast := some v } }

def RoomBuilder.set_enable_recording (b : RoomBuilder) (v : RecordingType) : RoomBuilder :=
  { b with properties := { b.properties with enable_recording := some v } }

def RoomBuilder.set_eject_at_room_exp (b : RoomBuilder) (v : Bool) : RoomBuilder :=
  { b with properties := { b.properties with eject_at_room_exp := some v } }

def RoomBuilder.set_eject_after_elapsed (b : RoomBuilder) (v : Int) : RoomBuilder :=
  { b with properties := { b.properties with eject_after_elapsed := some v } }

def RoomBuilder.set_enable_hidden_participants (b : RoomBuilder) (v : Bool) : RoomBuilder :=
  { b with properties := { b.properties with enable_hidden_participants := some v } }

def RoomBuilder.set_enable_mesh_sfu (b : RoomBuilder) (v : Bool) : RoomBuilder :=
  { b with properties := { b.properties with enable_mesh_sfu := some v } }

def RoomBuilder.set_experimental_optimize_large_calls (b : RoomBuilder) (v : Bool) : RoomBuilder :=
  { b with properties := { b.properties with experimental_optimize_large_calls := some v } }

def RoomBuilder.set_lang (b : RoomBuilder) (v : DailyLang) : RoomBuilder :=
  { b with properties := { b.properties with lang := some v } }

def RoomBuilder.set_meeting_join_hook (b : RoomBuilder) (v : String) : RoomBuilder :=
  { b with properties := { b.properties with meeting_join_hook := some v } }

def RoomBuilder.set_signaling_imp (b : RoomBuilder) (v : SignalingImp) : RoomBuilder :=
  { b with properties := { b.properties with signaling_imp := some v } }

def RoomBuilder.set_geo (b : RoomBuilder) (v : Region) : RoomBuilder :=
  { b with properties := { b.properties with geo := some v } }

def RoomBuilder.set_rtmp_geo (b : RoomBuilder) (v : RtmpGeoRegion) : RoomBuilder :=
  { b with properties := { b.properties with rtmp_geo := some v } }

def RoomBuilder.set_enable_terse_logging (b : RoomBuilder) (v : Bool) : RoomBuilder :=
  { b with properties := { b.properties with enable_terse_logging := some v } }

/-- The three top-level serialized fields of `RoomBuilder`, in declaration
order. -/
inductive RBTopField where
  | name | privacy | properties
deriving DecidableEq

def rbTopKey : RBTopField → String
  | .name => "name"
  | .privacy => "privacy"
  | .properties => "properties"

def readRBTop : RBTopField → RoomBuilder → Option Json
  | .name, b => b.name.map .str
  | .privacy, b => b.privacy.map encRoomPrivacy
  | .properties, b => some (.obj (room.serializeRoomPropertiesBuilder b.properties))

/-- serde `Serialize` for `RoomBuilder`: `name` and `privacy` skip-if-none,
then the always-present nested `properties` object. -/
def serializeRoomBuilder (b : RoomBuilder) : List (String × Json) :=
  enumObj [RBTopField.name, .privacy, .properties] rbTopKey readRBTop b

theorem lookup_serializeRB (b : RoomBuilder) (g : RBTopField) :
    List.lookup (rbTopKey g) (serializeRoomBuilder b) = readRBTop g b := by
  apply lookup_enumObj (by decide)
  cases g <;> decide

/-- Room object metadata as reported by `Daily`. -/
structure Room where
  id : String
  name : String
  api_created : Bool
  privacy : RoomPrivacy
  url : String
  created_at : String
  config : RoomProperties
deriving DecidableEq

/-! ## `src/error.rs` and `src/client.rs`: error classification, pagination, client construction -/

/-- The fixed `error` kind vocabulary returned by `Daily`
(`#[serde(rename_all = "kebab-case")]`). -/
inductive DailyCoErrorKind where
  | authenticationError
  | authorizationHeaderError
  | jsonParsingError
  | invalidRequestError
  | rateLimitError
  | serverError
  | notFound
deriving DecidableEq

def decDailyCoErrorKind : Json → Option DailyCoErrorKind
  | .str "authentication-error" => some .authenticationError
  | .str "authorization-header-error" => some .authorizationHeaderError
  | .str "json-parsing-error" => some .jsonParsingError
  | .str "invalid-request-error" => some .invalidRequestError
  | .str "rate-limit-error" => some .rateLimitError
  | .str "server-error" => some .serverError
  | .str "not-found" => some .notFound
  | _ => none

/-- Information about the error returned by `Daily`: both fields are
`Option`s. -/
structure DailyCoErrorInfo where
  error : Option DailyCoErrorKind
  info : Option String
deriving DecidableEq

/-- serde `Deserialize` for `DailyCoErrorInfo`: must be a JSON object;
each of the two optional fields is `None` when missing or `null`, and must
decode when present. -/
def decodeDailyCoErrorInfo : Json → Option DailyCoErrorInfo
  | .obj fs =>
      match getOptD fs "error" decDailyCoErrorKind with
      | none => none
      | some error =>
      match getOptD fs "info" decStr with
      | none => none
      | some info =>
      some (DailyCoErrorInfo.mk error info)
  | _ => none

/-- The one kind of `reqwest::Error` that arises in this model: the
response body could not be read as the expected JSON value. -/
inductive ReqError where
  | decodeFailure
deriving DecidableEq

/-- The possible errors when making requests to `Daily`. -/
inductive Error where
  | Request (e : ReqError)
  | APIError (i : DailyCoErrorInfo)
  | BadAPIKey (s : String)
  | RequiresPagination
deriving DecidableEq

/-- `Error::from_failed_daily_request`: try to read the failed response's
body as a `DailyCoErrorInfo` (`response.json()`); on success wrap it as
`APIError`, otherwise surface the decode failure as `Request`. The body is
modeled as `Option Json`: `none` stands for a body that is not valid JSON
at all. -/
def fromFailedDailyRequest (body : Option Json) : Error :=
  match body with
  | none => .Request .decodeFailure
  | some j =>
      match decodeDailyCoErrorInfo j with
      | some info => .APIError info
      | none => .Request .decodeFailure

/-- Whether an HTTP status is a success (`reqwest::StatusCode::is_success`,
i.e. `2xx`). -/
def isSuccessStatus (status : Nat) : Bool :=
  200 ≤ status && status < 300

/-- `parse_dailyco_response`: on a success status decode the body as the
expected type (a body that fails to parse or decode surfaces as a
`Request` transport error via `?`); on a non-success status classify the
failure with `Error::from_failed_daily_request`. -/
def parseDailycoResponse {α : Type} (dec : Json → Option α)
    (status : Nat) (body : Option Json) : Except Error α :=
  if isSuccessStatus status then
    match body with
    | none => .error (.Request .decodeFailure)
    | some j =>
        match dec j with
        | some v => .ok v
        | none => .error (.Request .decodeFailure)
  else
    .error (fromFailedDailyRequest body)

/-- The shape of a successfully parsed room-listing response
(`GetRoomsResponse`). -/
structure GetRoomsResponse where
  total_count : Nat
  data : List Room
deriving DecidableEq

/-- The post-parse logic of `Client::get_rooms`: reject result sets at the
pagination threshold (`total_count >= 100`) with `RequiresPagination`,
otherwise return the data list unchanged. -/
def getRoomsResult (resp : GetRoomsResponse) : Except Error (List Room) :=
  if resp.total_count ≥ 100 then
    .error .RequiresPagination
  else
    .ok resp.data

/-- A `Client`: after construction it holds only the immutable base URL
and the prepared (sensitive) authorization header value. -/
structure Client where
  auth_header : String
  base_url : String
deriving DecidableEq

/-- Whether every character of a string is ASCII. -/
def isAsciiStr (s : String) : Bool :=
  s.data.all (fun c => c.toNat < 128)

/-- Modelled from the spec: `http::HeaderValue::try_from` as used by
`Client::with_endpoint` (external transport code, not part of this
repository). Per the spec (§7, "a credential string containing non-ASCII
characters" is a local usage error) and the crate's own doc comment on
`Client::new` ("If the given API key does not contain only ASCII
characters, an error variant will be returned"), the header-value
constructor accepts exactly the ASCII strings. -/
def headerValueTryFrom (s : String) : Option String :=
  if isAsciiStr s then some s else none

/-- `Client::with_endpoint`: build the `Bearer` authorization header from
the key; a header-value construction failure is mapped to `BadAPIKey`
before any request is made; otherwise the client is constructed with the
given endpoint. (`reqwest::Client::builder().build()` is an external
collaborator modeled as always succeeding.) -/
def Client.with_endpoint (key : String) (endpoint : String) : Except Error Client :=
  match headerValueTryFrom ("Bearer " ++ key) with
  | none => .error (.BadAPIKey "API key must include only ASCII characters")
  | some v => .ok { auth_header := v, base_url := endpoint }

def BASE_URL : String := "https://api.daily.co/v1/"

/-- `Client::new`: `with_endpoint` at the fixed production base URL. -/
def Client.new (key : String) : Except Error Client :=
  Client.with_endpoint key BASE_URL

/-! ## Setter calls, for the builder-algebra properties -/

/-- One constructor per fluent setter of `RoomPropertiesBuilder`, carrying
the argument of the call (`sfu_always` takes none). -/
inductive RPBCall where
  | nbf (v : Int)
  | exp (v : Int)
  | max_participants (v : Nat)
  | enable_people_ui (v : Bool)
  | enable_pip_ui (v : Bool)
  | enable_prejoin_ui (v : Bool)
  | enable_network_ui (v : Bool)
  | enable_knocking (v : Bool)
  | enable_screenshare (v : Bool)
  | enable_video_processing_ui (v : Bool)
  | enable_chat (v : Bool)
  | start_video_off (v : Bool)
  | start_audio_off (v : Bool)
  | owner_only_broadcast (v : Bool)
  | enable_recording (v : RecordingType)
  | eject_at_room_exp (v : Bool)
  | eject_after_elapsed (v : Int)
  | enable_hidden_participants (v : Bool)
  | enable_mesh_sfu (v : Bool)
  | experimental_optimize_large_calls (v : Bool)
  | lang (v : DailyLang)
  | meeting_join_hook (v : String)
  | signaling_imp (v : SignalingImp)
  | geo (v : Region)
  | rtmp_geo (v : RtmpGeoRegion)
  | enable_terse_logging (v : Bool)
  | recordings_template (v : String)
  | sfu_switchover (v : Rat)
  | recordings_bucket (v : RecordingsBucket)
  | sfu_always

/-- Execute a setter call on a builder (each constructor invokes the
corresponding `set_*` setter). -/
def RPBCall.apply : RPBCall → RoomPropertiesBuilder → RoomPropertiesBuilder
  | .nbf v, b => b.set_nbf v
  | .exp v, b => b.set_exp v
  | .max_participants v, b => b.set_max_participants v
  | .enable_people_ui v, b => b.set_enable_people_ui v
  | .enable_pip_ui v, b => b.set_enable_pip_ui v
  | .enable_prejoin_ui v, b => b.set_enable_prejoin_ui v
  | .enable_network_ui v, b => b.set_enable_network_ui v
  | .enable_knocking v, b => b.set_enable_knocking v
  | .enable_screenshare v, b => b.set_enable_screenshare v
  | .enable_video_processing_ui v, b => b.set_enable_video_processing_ui v
  | .enable_chat v, b => b.set_enable_chat v
  | .start_video_off v, b => b.set_start_video_off v
  | .start_audio_off v, b => b.set_start_audio_off v
  | .owner_only_broadcast v, b => b.set_owner_only_broadcast v
  | .enable_recording v, b => b.set_enable_recording v
  | .eject_at_room_exp v, b => b.set_eject_at_room_exp v
  | .eject_after_elapsed v, b => b.set_eject_after_elapsed v
  | .enable_hidden_participants v, b => b.set_enable_hidden_participants v
  | .enable_mesh_sfu v, b => b.set_enable_mesh_sfu v
  | .experimental_optimize_large_calls v, b => b.set_experimental_optimize_large_calls v
  | .lang v, b => b.set_lang v
  | .meeting_join_hook v, b => b.set_meeting_join_hook v
  | .signaling_imp v, b => b.set_signaling_imp v
  | .geo v, b => b.set_geo v
  | .rtmp_geo v, b => b.set_rtmp_geo v
  | .enable_terse_logging v, b => b.set_enable_terse_logging v
  | .recordings_template v, b => b.set_recordings_template v
  | .sfu_switchover v, b => b.set_sfu_switchover v
  | .recordings_bucket v, b => b.set_recordings_bucket v
  | .sfu_always, b => b.set_sfu_always

/-- The field a setter call writes (`sfu_always` writes
`sfu_switchover`). -/
def RPBCall.target : RPBCall → RPField
  | .nbf _ => .nbf
  | .exp _ => .exp
  | .max_participants _ => .max_participants
  | .enable_people_ui _ => .enable_people_ui
  | .enable_pip_ui _ => .enable_pip_ui
  | .enable_prejoin_ui _ => .enable_prejoin_ui
  | .enable_network_ui _ => .enable_network_ui
  | .enable_knocking _ => .enable_knocking
  | .enable_screenshare _ => .enable_screenshare
  | .enable_video_processing_ui _ => .enable_video_processing_ui
  | .enable_chat _ => .enable_chat
  | .start_video_off _ => .start_video_off
  | .start_audio_off _ => .start_audio_off
  | .owner_only_broadcast _ => .owner_only_broadcast
  | .enable_recording _ => .enable_recording
  | .eject_at_room_exp _ => .eject_at_room_exp
  | .eject_after_elapsed _ => .eject_after_elapsed
  | .enable_hidden_participants _ => .enable_hidden_participants
  | .enable_mesh_sfu _ => .enable_mesh_sfu
  | .experimental_optimize_large_calls _ => .experimental_optimize_large_calls
  | .lang _ => .lang
  | .meeting_join_hook _ => .meeting_join_hook
  | .signaling_imp _ => .signaling_imp
  | .geo _ => .geo
  | .rtmp_geo _ => .rtmp_geo
  | .enable_terse_logging _ => .enable_terse_logging
  | .recordings_template _ => .recordings_template
  | .sfu_switchover _ => .sfu_switchover
  | .recordings_bucket _ => .recordings_bucket
  | .sfu_always => .sfu_switchover

/-- No `RoomPropertiesBuilder` setter changes any field other than its
target. -/
theorem rpb_noninterference (c : RPBCall) (b : RoomPropertiesBuilder)
    (g : RPField) (h : g ≠ c.target) :
    readRPB g (c.apply b) = readRPB g b := by
  cases c <;> cases g <;> first | rfl | exact absurd rfl h

/-- Two `RoomPropertiesBuilder` setter calls writing the same field: the
last write wins. -/
theorem rpb_last_write_wins (c₁ c₂ : RPBCall) (b : RoomPropertiesBuilder)
    (h : c₁.target = c₂.target) :
    c₂.apply (c₁.apply b) = c₂.apply b := by
  cases c₁ <;> cases c₂ <;> first | rfl | simp [RPBCall.target] at h

/-- One constructor per fluent setter of `CreateMeetingToken`. -/
inductive CMTCall where
  | room_name (v : String)
  | eject_at_token_exp (v : Bool)
  | eject_after_elapsed (v : Int)
  | nbf (v : Int)
  | exp (v : Int)
  | is_owner (v : Bool)
  | user_name (v : String)
  | user_id (v : String)
  | enable_screenshare (v : Bool)
  | start_video_off (v : Bool)
  | start_audio_off (v : Bool)
  | enable_recording (v : RecordingType)
  | enable_prejoin_ui (v : Bool)
  | enable_terse_logging (v : Bool)
  | start_cloud_recording (v : Bool)
  | close_tab_on_exit (v : Bool)
  | redirect_on_meeting_exit (v : String)
  | lang (v : DailyLang)

def CMTCall.apply : CMTCall → CreateMeetingToken → CreateMeetingToken
  | .room_name v, b => b.set_room_name v
  | .eject_at_token_exp v, b => b.set_eject_at_token_exp v
  | .eject_after_elapsed v, b => b.set_eject_after_elapsed v
  | .nbf v, b => b.set_nbf v
  | .exp v, b => b.set_exp v
  | .is_owner v, b => b.set_is_owner v
  | .user_name v, b => b.set_user_name v
  | .user_id v, b => b.set_user_id v
  | .enable_screenshare v, b => b.set_enable_screenshare v
  | .start_video_off v, b => b.set_start_video_off v
  | .start_audio_off v, b => b.set_start_audio_off v
  | .enable_recording v, b => b.set_enable_recording v
  | .enable_prejoin_ui v, b => b.set_enable_prejoin_ui v
  | .enable_terse_logging v, b => b.set_enable_terse_logging v
  | .start_cloud_recording v, b => b.set_start_cloud_recording v
  | .close_tab_on_exit v, b => b.set_close_tab_on_exit v
  | .redirect_on_meeting_exit v, b => b.set_redirect_on_meeting_exit v
  | .lang v, b => b.set_lang v

def CMTCall.target : CMTCall → CMTField
  | .room_name _ => .room_name
  | .eject_at_token_exp _ => .eject_at_token_exp
  | .eject_after_elapsed _ => .eject_after_elapsed
  | .nbf _ => .nbf
  | .exp _ => .exp
  | .is_owner _ => .is_owner
  | .user_name _ => .user_name
  | .user_id _ => .user_id
  | .enable_screenshare _ => .enable_screenshare
  | .start_video_off _ => .start_video_off
  | .start_audio_off _ => .start_audio_off
  | .enable_recording _ => .enable_recording
  | .enable_prejoin_ui _ => .enable_prejoin_ui
  | .enable_terse_logging _ => .enable_terse_logging
  | .start_cloud_recording _ => .start_cloud_recording
  | .close_tab_on_exit _ => .close_tab_on_exit
  | .redirect_on_meeting_exit _ => .redirect_on_meeting_exit
  | .lang _ => .lang

/-- No `CreateMeetingToken` setter changes any field other than its
target. -/
theorem cmt_noninterference (c : CMTCall) (b : CreateMeetingToken)
    (g : CMTField) (h : g ≠ c.target) :
    readCMT g (c.apply b) = readCMT g b := by
  cases c <;> cases g <;> first | rfl | exact absurd rfl h

/-- Two `CreateMeetingToken` setter calls writing the same field: the last
write wins. -/
theorem cmt_last_write_wins (c₁ c₂ : CMTCall) (b : CreateMeetingToken)
    (h : c₁.target = c₂.target) :
    c₂.apply (c₁.apply b) = c₂.apply b := by
  cases c₁ <;> cases c₂ <;> first | rfl | simp [CMTCall.target] at h

/-- The (flattened) fields of a `RoomBuilder`: the two top-level identity
fields plus the embedded property-bag fields. -/
inductive RBField where
  | name
  | privacy
  | prop (p : room.RPBField)
deriving DecidableEq

/-- A `RoomBuilder` field's state: the caller's value when set, `none`
otherwise. -/
def readRB : RBField → RoomBuilder → Option Json
  | .name, b => b.name.map .str
  | .privacy, b => b.privacy.map encRoomPrivacy
  | .prop p, b => room.readRPBInner p b.properties

/-- One constructor per fluent setter of `RoomBuilder`. -/
inductive RBCall where
  | name (v : String)
  | privacy (v : RoomPrivacy)
  | nbf (v : Int)
  | exp (v : Int)
  | max_participants (v : Nat)
  | enable_people_ui (v : Bool)
  | enable_pip_ui (v : Bool)
  | enable_prejoin_ui (v : Bool)
  | enable_network_ui (v : Bool)
  | enable_knocking (v : Bool)
  | enable_screenshare (v : Bool)
  | enable_video_processing_ui (v : Bool)
  | enable_chat (v : Bool)
  | start_video_off (v : Bool)
  | start_audio_off (v : Bool)
  | owner_only_broadcast (v : Bool)
  | enable_recording (v : RecordingType)
  | eject_at_room_exp (v : Bool)
  | eject_after_elapsed (v : Int)
  | enable_hidden_participants (v : Bool)
  | enable_mesh_sfu (v : Bool)
  | experimental_optimize_large_calls (v : Bool)
  | lang (v : DailyLang)
  | meeting_join_hook (v : String)
  | signaling_imp (v : SignalingImp)
  | geo (v : Region)
  | rtmp_geo (v : RtmpGeoRegion)
  | enable_terse_logging (v : Bool)

def RBCall.apply : RBCall → RoomBuilder → RoomBuilder
  | .name v, b => b.set_name v
  | .privacy v, b => b.set_privacy v
  | .nbf v, b => b.set_nbf v
  | .exp v, b => b.set_exp v
  | .max_participants v, b => b.set_max_participants v
  | .enable_people_ui v, b => b.set_enable_people_ui v
  | .enable_pip_ui v, b => b.set_enable_pip_ui v
  | .enable_prejoin_ui v, b => b.set_enable_prejoin_ui v
  | .enable_network_ui v, b => b.set_enable_network_ui v
  | .enable_knocking v, b => b.set_enable_knocking v
  | .enable_screenshare v, b => b.set_enable_screenshare v
  | .enable_video_processing_ui v, b => b.set_enable_video_processing_ui v
  | .enable_chat v, b => b.set_enable_chat v
  | .start_video_off v, b => b.set_start_video_off v
  | .start_audio_off v, b => b.set_start_audio_off v
  | .owner_only_broadcast v, b => b.set_owner_only_broadcast v
  | .enable_recording v, b => b.set_enable_recording v
  | .eject_at_room_exp v, b => b.set_eject_at_room_exp v
  | .eject_after_elapsed v, b => b.set_eject_after_elapsed v
  | .enable_hidden_participants v, b => b.set_enable_hidden_participants v
  | .enable_mesh_sfu v, b => b.set_enable_mesh_sfu v
  | .experimental_optimize_large_calls v, b => b.set_experimental_optimize_large_calls v
  | .lang v, b => b.set_lang v
  | .meeting_join_hook v, b => b.set_meeting_join_hook v
  | .signaling_imp v, b => b.set_signaling_imp v
  | .geo v, b => b.set_geo v
  | .rtmp_geo v, b => b.set_rtmp_geo v
  | .enable_terse_logging v, b => b.set_enable_terse_logging v

def RBCall.target : RBCall → RBField
  | .name _ => .name
  | .privacy _ => .privacy
  | .nbf _ => .prop .nbf
  | .exp _ => .prop .exp
  | .max_participants _ => .prop .max_participants
  | .enable_people_ui _ => .prop .enable_people_ui
  | .enable_pip_ui _ => .prop .enable_pip_ui
  | .enable_prejoin_ui _ => .prop .enable_prejoin_ui
  | .enable_network_ui _ => .prop .enable_network_ui
  | .enable_knocking _ => .prop .enable_knocking
  | .enable_screenshare _ => .prop .enable_screenshare
  | .enable_video_processing_ui _ => .prop .enable_video_processing_ui
  | .enable_chat _ => .prop .enable_chat
  | .start_video_off _ => .prop .start_video_off
  | .start_audio_off _ => .prop .start_audio_off
  | .owner_only_broadcast _ => .prop .owner_only_broadcast
  | .enable_recording _ => .prop .enable_recording
  | .eject_at_room_exp _ => .prop .eject_at_room_exp
  | .eject_after_elapsed _ => .prop .eject_after_elapsed
  | .enable_hidden_participants _ => .prop .enable_hidden_participants
  | .enable_mesh_sfu _ => .prop .enable_mesh_sfu
  | .experimental_optimize_large_calls _ => .prop .experimental_optimize_large_calls
  | .lang _ => .prop .lang
  | .meeting_join_hook _ => .prop .meeting_join_hook
  | .signaling_imp _ => .prop .signaling_imp
  | .geo _ => .prop .geo
  | .rtmp_geo _ => .prop .rtmp_geo
  | .enable_terse_logging _ => .prop .enable_terse_logging

/-- No `RoomBuilder` setter changes any field other than its target. -/
theorem rb_noninterference (c : RBCall) (b : RoomBuilder)
    (g : RBField) (h : g ≠ c.target) :
    readRB g (c.apply b) = readRB g b := by
  cases c <;> cases g <;>
    first
      | rfl
      | exact absurd rfl h
      | (rename_i p; cases p <;> first | rfl | exact absurd rfl h)

/-- Two `RoomBuilder` setter calls writing the same field: the last write
wins. -/
theorem rb_last_write_wins (c₁ c₂ : RBCall) (b : RoomBuilder)
    (h : c₁.target = c₂.target) :
    c₂.apply (c₁.apply b) = c₂.apply b := by
  cases c₁ <;> cases c₂ <;> first | rfl | simp [RBCall.target] at h

/-! ## Remaining observation functions for the claims -/

/-- Where a (flattened) `RoomBuilder` field lives in the serialized request
object: `name`/`privacy` at top level, the property-bag fields inside the
nested `properties` object. -/
def lookupRoomBuilderField : RBField → List (String × Json) → Option Json
  | .name, fs => List.lookup "name" fs
  | .privacy, fs => List.lookup "privacy" fs
  | .prop p, fs =>
      match List.lookup "properties" fs with
      | some (.obj ps) => List.lookup (room.rpbKey p) ps
      | _ => none

/-- Read a `RoomProperties` entity field back as its wire value (used to
compare a round-tripped entity against the builder's set values). -/
def entityReadRP : RPField → RoomProperties → Option Json
  | .nbf, e => e.nbf.map encInt
  | .exp, e => e.exp.map encInt
  | .max_participants, e => e.max_participants.map encNat
  | .enable_people_ui, e => e.enable_people_ui.map .bool
  | .enable_pip_ui, e => some (.bool e.enable_pip_ui)
  | .enable_prejoin_ui, e => e.enable_prejoin_ui.map .bool
  | .enable_network_ui, e => some (.bool e.enable_network_ui)
  | .enable_knocking, e => some (.bool e.enable_knocking)
  | .enable_screenshare, e => some (.bool e.enable_screenshare)
  | .enable_video_processing_ui, e => some (.bool e.enable_video_processing_ui)
  | .enable_chat, e => some (.bool e.enable_chat)
  | .start_video_off, e => some (.bool e.start_video_off)
  | .start_audio_off, e => some (.bool e.start_audio_off)
  | .owner_only_broadcast, e => some (.bool e.owner_only_broadcast)
  | .enable_recording, e => e.enable_recording.map encRecordingType
  | .eject_at_room_exp, e => some (.bool e.eject_at_room_exp)
  | .eject_after_elapsed, e => e.eject_after_elapsed.map encInt
  | .enable_hidden_participants, e => some (.bool e.enable_hidden_participants)
  | .enable_mesh_sfu, e => e.enable_mesh_sfu.map .bool
  | .experimental_optimize_large_calls, e => e.experimental_optimize_large_calls.map .bool
  | .lang, e => some (encDailyLang e.lang)
  | .meeting_join_hook, e => e.meeting_join_hook.map .str
  | .signaling_imp, e => some (encSignalingImp e.signaling_imp)
  | .geo, e => e.geo.map encRegion
  | .rtmp_geo, e => e.rtmp_geo.map encRtmpGeoRegion
  | .enable_terse_logging, e => some (.bool e.enable_terse_logging)
  | .recordings_template, e => e.recordings_template.map .str
  | .recordings_bucket, e => e.recordings_bucket.map encRecordingsBucket
  | .sfu_switchover, e => e.sfu_switchover.map .num

/-- Read a `MeetingToken` entity field back as its wire value. -/
def entityReadMT : CMTField → MeetingToken → Option Json
  | .room_name, e => e.room_name.map .str
  | .eject_at_token_exp, e => some (.bool e.eject_at_token_exp)
  | .eject_after_elapsed, e => e.eject_after_elapsed.map encInt
  | .nbf, e => e.nbf.map encInt
  | .exp, e => e.exp.map encInt
  | .is_owner, e => some (.bool e.is_owner)
  | .user_name, e => e.user_name.map .str
  | .user_id, e => e.user_id.map .str
  | .enable_screenshare, e => some (.bool e.enable_screenshare)
  | .start_video_off, e => some (.bool e.start_video_off)
  | .start_audio_off, e => some (.bool e.start_audio_off)
  | .enable_recording, e => e.enable_recording.map encRecordingType
  | .enable_prejoin_ui, e => e.enable_prejoin_ui.map .bool
  | .enable_terse_logging, e => some (.bool e.enable_terse_logging)
  | .start_cloud_recording, e => some (.bool e.start_cloud_recording)
  | .close_tab_on_exit, e => some (.bool e.close_tab_on_exit)
  | .redirect_on_meeting_exit, e => e.redirect_on_meeting_exit.map .str
  | .lang, e => e.lang.map encDailyLang

/-! ## The claims -/

/-- C1: For every property-bag builder (`RoomPropertiesBuilder`,
`RoomBuilder`, `CreateMeetingToken`) and every field, the serialized JSON
request object contains the field's key exactly when the caller set the
field (no `null`, no default placeholder): the lookup of the field's key
equals the field's builder state (`none` when unset, `some` of the
caller's encoded value when set). -/
theorem c1_unset_fields_omitted :
    (∀ (b : RoomPropertiesBuilder) (g : RPField),
        List.lookup (rpfKey g) (serializeRoomPropertiesBuilder b) = readRPB g b)
    ∧ (∀ (b : CreateMeetingToken) (g : CMTField),
        List.lookup (cmtKey g) (serializeCreateMeetingToken b) = readCMT g b)
    ∧ (∀ (b : RoomBuilder) (g : RBField),
        lookupRoomBuilderField g (serializeRoomBuilder b) = readRB g b) := by
  refine ⟨lookup_serializeRPB, lookup_serializeCMT, ?_⟩
  intro b g
  cases g with
  | name => exact lookup_serializeRB b .name
  | privacy => exact lookup_serializeRB b .privacy
  | prop p =>
      have hp : List.lookup "properties" (serializeRoomBuilder b)
          = some (.obj (room.serializeRoomPropertiesBuilder b.properties)) :=
        lookup_serializeRB b .properties
      show (match List.lookup "properties" (serializeRoomBuilder b) with
            | some (.obj ps) => List.lookup (room.rpbKey p) ps
            | _ => none) = readRB (.prop p) b
      rw [hp]
      exact room.lookup_serializeRPBInner b.properties p

/-- C2: Every entity field with a documented default materializes to that
default when absent from the response payload. For `RoomProperties` (over
arbitrary payloads lacking the key): `enable_screenshare` absent decodes
to `true`, `enable_chat` absent decodes to `false`, `lang` absent decodes
to the English default. Moreover decoding the empty payload yields exactly
the fully-defaulted `RoomProperties` and `MeetingToken` entities (note:
`MeetingToken.lang` is an undefaulted `Option` field, so it is `none`
there, while `MeetingToken.enable_screenshare` defaults to `true`). -/
theorem c2_documented_defaults :
    (∀ (fs : List (String × Json)) (rp : RoomProperties),
        decodeRoomProperties (.obj fs) = some rp →
          (List.lookup "enable_screenshare" fs = none → rp.enable_screenshare = true)
          ∧ (List.lookup "enable_chat" fs = none → rp.enable_chat = false)
          ∧ (List.lookup "lang" fs = none → rp.lang = .en))
    ∧ decodeRoomProperties (.obj [])
        = some ⟨none, none, none, none, false, none, false, false, true, true,
                false, false, false, false, none, false, none, false, none,
                none, .en, none, .ws, none, none, false, none, none, none⟩
    ∧ decodeMeetingToken (.obj [])
        = some ⟨none, false, none, none, none, false, none, none, true,
                false, false, none, none, false, false, false, none, none⟩ := by
  refine ⟨?_, rfl, rfl⟩
  intro fs rp h
  obtain ⟨h1, h2, h3⟩ := decodeRPF_fields h
  refine ⟨?_, ?_, ?_⟩
  · intro hlk
    rw [getD_of_lookup_none hlk] at h1
    exact (Option.some_inj.mp h1).symm
  · intro hlk
    rw [getD_of_lookup_none hlk] at h2
    exact (Option.some_inj.mp h2).symm
  · intro hlk
    rw [getD_of_lookup_none hlk] at h3
    exact (Option.some_inj.mp h3).symm

/-- Witness for C2 at the concrete empty payload: the documented defaults
hold for the decoded entity. -/
theorem c2_documented_defaults_witness :
    (matRoomProperties RoomPropertiesBuilder.new).enable_screenshare = true
    ∧ (matRoomProperties RoomPropertiesBuilder.new).enable_chat = false
    ∧ (matRoomProperties RoomPropertiesBuilder.new).lang = .en := by
  have h := c2_documented_defaults.1 [] (matRoomProperties RoomPropertiesBuilder.new) rfl
  exact ⟨h.1 rfl, h.2.1 rfl, h.2.2 rfl⟩

/-- C3: For a meeting-token builder with exactly `room_name = "abc"`,
`is_owner = true`, `eject_after_elapsed = 50` set, the self-signed
token's decoded payload claim set is exactly
`{"r": "abc", "o": true, "eje": 50, "d": <domain>}` — the same pairs up to
ordering, and no other claims. -/
theorem c3_self_sign_claim_set (d : String) :
    List.Perm
      (selfSignTokenClaims
        (((CreateMeetingToken.new.set_room_name "abc").set_is_owner true).set_eject_after_elapsed 50)
        d)
      [("r", .str "abc"), ("o", .bool true), ("eje", encInt 50), ("d", .str d)] := by
  have h : selfSignTokenClaims
        (((CreateMeetingToken.new.set_room_name "abc").set_is_owner true).set_eject_after_elapsed 50)
        d
      = [("d", .str d), ("r", .str "abc"), ("eje", encInt 50), ("o", .bool true)] := rfl
  rw [h]
  refine List.Perm.trans (List.perm_append_singleton _ _).symm ?_
  exact List.Perm.append_right _ (List.Perm.cons _ (List.Perm.swap _ _ _))

/-- C4: The self-sign claim set is exactly isomorphic to the
network-request field set under the static field-to-claim-key mapping:
(1) for every field, the claim-key lookup in the self-signed payload
equals the field-key lookup in the network request (unset fields absent on
both paths, set fields carrying the same value); (2) the self-signed
payload's keys are exactly the domain-id claim `d` followed by the claim
keys of the set fields, and nothing else; (3) the network path
materializes the builder to its `From`-converted `MeetingToken`, i.e. the
two paths decode to equal entities. -/
theorem c4_claim_set_isomorphic (d : String) (b : CreateMeetingToken) :
    (∀ g : CMTField,
        List.lookup (claimKey g) (selfSignTokenClaims b d)
          = List.lookup (cmtKey g) (serializeCreateMeetingToken b))
    ∧ (selfSignTokenClaims b d).map Prod.fst
        = "d" :: (allCMTFields.filter (fun g => (readCMT g b).isSome)).map claimKey
    ∧ decodeMeetingToken (.obj (serializeCreateMeetingToken b))
        = some (MeetingToken.ofBuilder b) := by
  refine ⟨?_, ?_, decode_serialize_cmt b⟩
  · intro g
    have hne : (claimKey g == "d") = false := by cases g <;> decide
    have hstep : List.lookup (claimKey g) (selfSignTokenClaims b d)
        = List.lookup (claimKey g) (serializeRenamed (.ofBuilder b)) := by
      show (match claimKey g == "d" with
            | true => some (Json.str d)
            | false => List.lookup (claimKey g) (serializeRenamed (.ofBuilder b)))
          = List.lookup (claimKey g) (serializeRenamed (.ofBuilder b))
      rw [hne]
    rw [hstep, lookup_serializeRenamed, readRenamed_ofBuilder,
        lookup_serializeCMT]
  · show "d" :: (serializeRenamed (.ofBuilder b)).map Prod.fst = _
    rw [serializeRenamed, keys_enumObj]
    congr 1

/-- C5: Building, serializing, and deserializing back into the entity type
preserves every explicitly set field's value exactly, for both
`RoomPropertiesBuilder` to `RoomProperties` and `CreateMeetingToken` to
`MeetingToken`. -/
theorem c5_roundtrip_preserves_set_fields :
    (∀ (b : RoomPropertiesBuilder) (g : RPField) (j : Json),
        readRPB g b = some j →
          (decodeRoomProperties (.obj (serializeRoomPropertiesBuilder b))).bind
              (entityReadRP g)
            = some j)
    ∧ (∀ (b : CreateMeetingToken) (g : CMTField) (j : Json),
        readCMT g b = some j →
          (decodeMeetingToken (.obj (serializeCreateMeetingToken b))).bind
              (entityReadMT g)
            = some j) := by
  constructor
  · intro b g j h
    rw [decode_serialize_rpb, Option.some_bind]
    cases g <;>
      simp only [entityReadRP, matRoomProperties] <;>
      simp only [readRPB] at h <;>
      first
        | exact h
        | (rw [Option.map_eq_some'] at h
           obtain ⟨v, hv, hj⟩ := h
           rw [hv, ← hj]
           try rfl)
  · intro b g j h
    rw [decode_serialize_cmt, Option.some_bind]
    cases g <;>
      simp only [entityReadMT, MeetingToken.ofBuilder] <;>
      simp only [readCMT] at h <;>
      first
        | exact h
        | (rw [Option.map_eq_some'] at h
           obtain ⟨v, hv, hj⟩ := h
           rw [hv, ← hj]
           try rfl)

/-- Witness for C5 at concrete inputs: a room-properties builder with
`exp = 9` set and a token builder with `is_owner = true` set round-trip to
entities carrying exactly those values. -/
theorem c5_roundtrip_witness :
    (decodeRoomProperties
        (.obj (serializeRoomPropertiesBuilder (RoomPropertiesBuilder.new.set_exp 9)))).bind
        (entityReadRP .exp)
      = some (encInt 9)
    ∧ (decodeMeetingToken
        (.obj (serializeCreateMeetingToken (CreateMeetingToken.new.set_is_owner true)))).bind
        (entityReadMT .is_owner)
      = some (.bool true) :=
  ⟨c5_roundtrip_preserves_set_fields.1 _ .exp _ rfl,
   c5_roundtrip_preserves_set_fields.2 _ .is_owner _ rfl⟩

/-- C6: For every successfully parsed room-listing response, `get_rooms`
fails with `Error::RequiresPagination` if and only if the reported
`total_count` is at least `100`; otherwise it returns the response's data
list unchanged. -/
theorem c6_pagination_threshold (resp : GetRoomsResponse) :
    (getRoomsResult resp = .error .RequiresPagination ↔ 100 ≤ resp.total_count)
    ∧ (resp.total_count < 100 → getRoomsResult resp = .ok resp.data) := by
  constructor
  · constructor
    · intro h
      by_contra hlt
      rw [getRoomsResult, if_neg hlt] at h
      exact Except.noConfusion h
    · intro hle
      rw [getRoomsResult, if_pos hle]
  · intro hlt
    rw [getRoomsResult, if_neg (by omega)]

/-- Witness for C6 at concrete responses: `total_count = 150` fails with
the pagination error, `total_count = 3` returns the data unchanged. -/
theorem c6_pagination_threshold_witness :
    getRoomsResult ⟨150, []⟩ = .error .RequiresPagination
    ∧ getRoomsResult ⟨3, []⟩ = .ok [] :=
  ⟨(c6_pagination_threshold ⟨150, []⟩).1.mpr (by decide),
   (c6_pagination_threshold ⟨3, []⟩).2 (by decide)⟩

/-- `parse_dailyco_response` on a non-success status classifies the
failure through `Error::from_failed_daily_request`. -/
theorem parse_non2xx {α : Type} (dec : Json → Option α) {status : Nat}
    (h : isSuccessStatus status = false) (body : Option Json) :
    parseDailycoResponse dec status body = .error (fromFailedDailyRequest body) := by
  unfold parseDailycoResponse
  rw [if_neg (by rw [h]; exact Bool.false_ne_true)]

/-- C7: For every non-2xx response, a body that is the JSON object
`{"error": "not-found", "info": "room not found"}` surfaces as
`Error::APIError` carrying kind `NotFound` and that info string, while a
body that is not valid JSON surfaces as the transport error
`Error::Request`, never as a service error. -/
theorem c7_error_classification {α : Type} (dec : Json → Option α)
    (status : Nat) (h : isSuccessStatus status = false) :
    parseDailycoResponse dec status
        (some (.obj [("error", .str "not-found"), ("info", .str "room not found")]))
      = .error (.APIError ⟨some .notFound, some "room not found"⟩)
    ∧ parseDailycoResponse dec status none = .error (.Request .decodeFailure) := by
  rw [parse_non2xx dec h, parse_non2xx dec h]
  exact ⟨rfl, rfl⟩

/-- Witness for C7 at the concrete status `404`. -/
theorem c7_error_classification_witness :
    parseDailycoResponse decodeMeetingToken 404
        (some (.obj [("error", .str "not-found"), ("info", .str "room not found")]))
      = .error (.APIError ⟨some .notFound, some "room not found"⟩)
    ∧ parseDailycoResponse decodeMeetingToken 404 none
      = .error (.Request .decodeFailure) :=
  c7_error_classification decodeMeetingToken 404 rfl

/-- C8: Constructing a client from a credential containing a non-ASCII
character fails with `Error::BadAPIKey` (purely locally: construction
performs no request), while every ASCII credential constructs a client;
`Client::new` is `with_endpoint` at the fixed production base URL. -/
theorem c8_ascii_credentials (key endpoint : String) :
    (isAsciiStr key = false →
        Client.with_endpoint key endpoint
          = .error (.BadAPIKey "API key must include only ASCII characters"))
    ∧ (isAsciiStr key = true →
        Client.with_endpoint key endpoint = .ok ⟨"Bearer " ++ key, endpoint⟩)
    ∧ Client.new key = Client.with_endpoint key BASE_URL := by
  have hb : isAsciiStr ("Bearer " ++ key) = isAsciiStr key := by
    show (("Bearer ").data ++ key.data).all _ = _
    rw [List.all_append]
    rfl
  refine ⟨?_, ?_, rfl⟩
  · intro h
    rw [Client.with_endpoint, headerValueTryFrom, hb, h]
    rfl
  · intro h
    rw [Client.with_endpoint, headerValueTryFrom, hb, h]
    rfl

/-- Witness for C8 at concrete credentials: an ASCII key constructs a
client, a key containing `é` is rejected locally. -/
theorem c8_ascii_credentials_witness :
    Client.with_endpoint "test-api-key" BASE_URL
      = .ok ⟨"Bearer test-api-key", BASE_URL⟩
    ∧ Client.with_endpoint "café-key" BASE_URL
      = .error (.BadAPIKey "API key must include only ASCII characters") :=
  ⟨(c8_ascii_credentials "test-api-key" BASE_URL).2.1 (by decide),
   (c8_ascii_credentials "café-key" BASE_URL).1 (by decide)⟩

/-- C9: For every builder (`RoomPropertiesBuilder`, `CreateMeetingToken`,
`RoomBuilder`) and every field setter: a setter call never changes any
field other than its target, and two calls writing the same field obey
last-write-wins (the first call leaves no trace on the resulting builder
state). -/
theorem c9_setter_algebra :
    (∀ (c : RPBCall) (b : RoomPropertiesBuilder) (g : RPField),
        g ≠ c.target → readRPB g (c.apply b) = readRPB g b)
    ∧ (∀ (c₁ c₂ : RPBCall) (b : RoomPropertiesBuilder),
        c₁.target = c₂.target → c₂.apply (c₁.apply b) = c₂.apply b)
    ∧ (∀ (c : CMTCall) (b : CreateMeetingToken) (g : CMTField),
        g ≠ c.target → readCMT g (c.apply b) = readCMT g b)
    ∧ (∀ (c₁ c₂ : CMTCall) (b : CreateMeetingToken),
        c₁.target = c₂.target → c₂.apply (c₁.apply b) = c₂.apply b)
    ∧ (∀ (c : RBCall) (b : RoomBuilder) (g : RBField),
        g ≠ c.target → readRB g (c.apply b) = readRB g b)
    ∧ (∀ (c₁ c₂ : RBCall) (b : RoomBuilder),
        c₁.target = c₂.target → c₂.apply (c₁.apply b) = c₂.apply b) :=
  ⟨rpb_noninterference, rpb_last_write_wins,
   cmt_noninterference, cmt_last_write_wins,
   rb_noninterference, rb_last_write_wins⟩

/-- Witness for C9 at concrete calls: setting `nbf` does not touch `exp`
(or `name`), and setting `nbf` twice equals setting it once with the
second value, on all three builders. -/
theorem c9_setter_algebra_witness :
    readRPB .exp ((RPBCall.nbf 1).apply RoomPropertiesBuilder.new)
      = readRPB .exp RoomPropertiesBuilder.new
    ∧ (RPBCall.nbf 2).apply ((RPBCall.nbf 1).apply RoomPropertiesBuilder.new)
      = (RPBCall.nbf 2).apply RoomPropertiesBuilder.new
    ∧ readCMT .exp ((CMTCall.nbf 1).apply CreateMeetingToken.new)
      = readCMT .exp CreateMeetingToken.new
    ∧ (CMTCall.nbf 2).apply ((CMTCall.nbf 1).apply CreateMeetingToken.new)
      = (CMTCall.nbf 2).apply CreateMeetingToken.new
    ∧ readRB .name ((RBCall.nbf 1).apply RoomBuilder.new)
      = readRB .name RoomBuilder.new
    ∧ (RBCall.nbf 2).apply ((RBCall.nbf 1).apply RoomBuilder.new)
      = (RBCall.nbf 2).apply RoomBuilder.new :=
  ⟨c9_setter_algebra.1 (.nbf 1) _ .exp (by decide),
   c9_setter_algebra.2.1 (.nbf 1) (.nbf 2) _ rfl,
   c9_setter_algebra.2.2.1 (.nbf 1) _ .exp (by decide),
   c9_setter_algebra.2.2.2.1 (.nbf 1) (.nbf 2) _ rfl,
   c9_setter_algebra.2.2.2.2.1 (.nbf 1) _ .name (by decide),
   c9_setter_algebra.2.2.2.2.2 (.nbf 1) (.nbf 2) _ rfl⟩

/-- C10 counterexample: a non-2xx body that is a JSON object whose
`error` field is present but not a valid kind string (here the number
`42`) is classified as the transport error `Error::Request`, not as
`Error::APIError` — refuting the claim that every JSON-object body yields
the service-error variant. -/
theorem c10_counterexample :
    fromFailedDailyRequest (some (.obj [("error", .num 42)]))
      = .Request .decodeFailure
    ∧ fromFailedDailyRequest (some (.obj [("error", .num 42)]))
      ≠ .APIError ⟨none, none⟩ := by
  refine ⟨rfl, ?_⟩
  intro h
  exact Error.noConfusion h

/-- C10 (amended): a non-2xx body that parses as a JSON object is
classified as `Error::APIError` whenever its two optional fields decode —
each of `error`/`info` missing, `null`, or carrying a well-typed value —
with the missing/`null` fields set to `None` (first conjunct; the
following three conjuncts record the neither-key, `{"info": "x"}` and
`{"error": null}` cases). Only when a key is present with a non-`null`
value that fails to deserialize does the whole `DailyCoErrorInfo` parse
fail and the result become the transport error `Error::Request` (last two
conjuncts, for each key). -/
theorem c10_amended_object_bodies :
    (∀ (fs : List (String × Json)) (e : Option DailyCoErrorKind) (i : Option String),
        getOptD fs "error" decDailyCoErrorKind = some e →
        getOptD fs "info" decStr = some i →
          fromFailedDailyRequest (some (.obj fs)) = .APIError ⟨e, i⟩)
    ∧ (∀ fs : List (String × Json),
        List.lookup "error" fs = none → List.lookup "info" fs = none →
          fromFailedDailyRequest (some (.obj fs)) = .APIError ⟨none, none⟩)
    ∧ fromFailedDailyRequest (some (.obj [("info", .str "x")]))
        = .APIError ⟨none, some "x"⟩
    ∧ fromFailedDailyRequest (some (.obj [("error", .null)]))
        = .APIError ⟨none, none⟩
    ∧ (∀ (fs : List (String × Json)) (j : Json),
        List.lookup "error" fs = some j → isNull j = false →
        decDailyCoErrorKind j = none →
          fromFailedDailyRequest (some (.obj fs)) = .Request .decodeFailure)
    ∧ (∀ (fs : List (String × Json)) (j : Json),
        List.lookup "info" fs = some j → isNull j = false →
        decStr j = none →
          fromFailedDailyRequest (some (.obj fs)) = .Request .decodeFailure) := by
  have hpos : ∀ (fs : List (String × Json)) (e : Option DailyCoErrorKind)
      (i : Option String),
      getOptD fs "error" decDailyCoErrorKind = some e →
      getOptD fs "info" decStr = some i →
        fromFailedDailyRequest (some (.obj fs)) = .APIError ⟨e, i⟩ := by
    intro fs e i hE hI
    have hd : decodeDailyCoErrorInfo (.obj fs) = some ⟨e, i⟩ := by
      simp only [decodeDailyCoErrorInfo]
      rw [hE, hI]
    show (match decodeDailyCoErrorInfo (.obj fs) with
          | some info => Error.APIError info
          | none => Error.Request ReqError.decodeFailure)
        = Error.APIError ⟨e, i⟩
    rw [hd]
  refine ⟨hpos, ?_, hpos _ _ _ rfl rfl, hpos _ _ _ rfl rfl, ?_, ?_⟩
  · intro fs he hi
    exact hpos fs none none (getOptD_of_lookup_none he) (getOptD_of_lookup_none hi)
  · intro fs j hlk hnn hdec
    have hE : getOptD fs "error" decDailyCoErrorKind = none := by
      unfold getOptD
      rw [hlk]
      show (if isNull j then some none
            else (decDailyCoErrorKind j).map some) = none
      rw [hnn, hdec]
      rfl
    have hd : decodeDailyCoErrorInfo (.obj fs) = none := by
      simp only [decodeDailyCoErrorInfo]
      rw [hE]
    show (match decodeDailyCoErrorInfo (.obj fs) with
          | some info => Error.APIError info
          | none => Error.Request ReqError.decodeFailure)
        = Error.Request ReqError.decodeFailure
    rw [hd]
  · intro fs j hlk hnn hdec
    have hI : getOptD fs "info" decStr = none := by
      unfold getOptD
      rw [hlk]
      show (if isNull j then some none else (decStr j).map some) = none
      rw [hnn, hdec]
      rfl
    have hd : decodeDailyCoErrorInfo (.obj fs) = none := by
      simp only [decodeDailyCoErrorInfo]
      cases hE : getOptD fs "error" decDailyCoErrorKind with
      | none => rfl
      | some e => rw [hI]
    show (match decodeDailyCoErrorInfo (.obj fs) with
          | some info => Error.APIError info
          | none => Error.Request ReqError.decodeFailure)
        = Error.Request ReqError.decodeFailure
    rw [hd]

/-- Witness for the amended C10 at concrete bodies: the empty object and
an info-only object are service errors with the missing fields `None`; an
object whose `error` value is the number `42` is a transport error. -/
theorem c10_amended_object_bodies_witness :
    fromFailedDailyRequest (some (.obj [])) = .APIError ⟨none, none⟩
    ∧ fromFailedDailyRequest (some (.obj [("info", .str "x")]))
        = .APIError ⟨none, some "x"⟩
    ∧ fromFailedDailyRequest (some (.obj [("error", .num 42)]))
        = .Request .decodeFailure :=
  ⟨c10_amended_object_bodies.1 [] none none rfl rfl,
   c10_amended_object_bodies.1 [("info", .str "x")] none (some "x") rfl rfl,
   c10_amended_object_bodies.2.2.2.2.1 [("error", .num 42)] (.num 42) rfl rfl rfl⟩
